import Mathlib

/-!
Verification development for the emergency-response simulation and dispatch
engine: a shallow embedding of the road-graph builder
(`data_processing.create_road_network_graph`), the vehicle state machine
(`vehicle_simulation.EmergencyVehicle` / `PoliceCar`), the simulator
(`VehicleSimulator`), the controller (`VehicleController`) and the dispatch
selection of `api.dispatch_vehicle`, together with theorems settling the
specification claims about them.

Numeric conventions: coordinates, speeds and times are embedded as rationals.
The machine's floating-point square root (`(...)**0.5` / shapely distances) is
abstracted as an explicit parameter `sqrtA : ℚ → ℚ`; theorems that depend on
properties of the square root (it maps 0 to 0, positives to positives, and is
monotone) take those properties as hypotheses, which the true square root
satisfies.
-/

namespace ERO

/-- A planar point `(x, y)` in the projected metric coordinate system. -/
abbrev Point := ℚ × ℚ

/-- Squared Euclidean distance between two points (the code computes
`(dx**2 + dy**2)**0.5`; we keep the square separately so that comparisons can
be carried out exactly over ℚ). -/
def d2 (a b : Point) : ℚ := (a.1 - b.1) ^ 2 + (a.2 - b.2) ^ 2

/-- `p` lies on the closed segment from `a` to `b`: collinearity (zero cross
product) together with the dot-product betweenness bounds.  This is the
standard quantifier-free characterisation of `∃ t ∈ [0,1], p = a + t • (b-a)`,
stated so that it is decidable over ℚ. -/
def onSeg (p a b : Point) : Prop :=
  (p.1 - a.1) * (b.2 - a.2) = (p.2 - a.2) * (b.1 - a.1) ∧
  0 ≤ (p.1 - a.1) * (b.1 - a.1) + (p.2 - a.2) * (b.2 - a.2) ∧
  (p.1 - a.1) * (b.1 - a.1) + (p.2 - a.2) * (b.2 - a.2) ≤
    (b.1 - a.1) ^ 2 + (b.2 - a.2) ^ 2

instance (p a b : Point) : Decidable (onSeg p a b) := by
  unfold onSeg; infer_instance

/-- `p` lies on the polyline through `pts`: it is one of the vertices or lies
on a segment between two consecutive vertices. -/
def onPolyline (p : Point) (pts : List Point) : Prop :=
  p ∈ pts ∨ ∃ q ∈ pts.zip pts.tail, onSeg p q.1 q.2

instance (p : Point) (pts : List Point) : Decidable (onPolyline p pts) := by
  unfold onPolyline; infer_instance

/-! ## Road graph data structure

Embedding of the `networkx.DiGraph` used by the builder and the simulator:
nodes carry `x`, `y` and a kind tag; edges carry the attribute dictionary
written by `create_road_network_graph`.  `add_node`/`add_edge` follow the
networkx semantics: adding an existing node or edge key updates its
attributes in place (all call sites write the full attribute set, so the
update is a plain replacement), otherwise the entry is appended. -/

structure GNode where
  id : String
  x : ℚ
  y : ℚ
  kind : String
deriving DecidableEq, Repr

structure EdgeAttrs where
  road_id : ℤ
  length : ℚ
  speed : ℚ
  travel_time : ℚ
  geometry : List Point
deriving DecidableEq, Repr

structure GEdge where
  src : String
  tgt : String
  attrs : EdgeAttrs
deriving DecidableEq, Repr

structure RoadGraph where
  nodes : List GNode
  edges : List GEdge
deriving DecidableEq, Repr

namespace RoadGraph

def empty : RoadGraph := ⟨[], []⟩

def hasNode (g : RoadGraph) (i : String) : Bool :=
  g.nodes.any (fun n => n.id == i)

/-- `graph.nodes[i]` position lookup (`None` when the node is absent, where
the Python dictionary access would raise `KeyError`). -/
def nodeXY? (g : RoadGraph) (i : String) : Option Point :=
  (g.nodes.find? (fun n => n.id == i)).map (fun n => (n.x, n.y))

/-- Insert-or-replace on the node list (dictionary semantics keyed by id:
an existing entry is updated in place, a new one appended). -/
def addNodeList (i : String) (x y : ℚ) (kind : String) : List GNode → List GNode
  | [] => [⟨i, x, y, kind⟩]
  | n :: ns => if n.id == i then ⟨i, x, y, kind⟩ :: ns else n :: addNodeList i x y kind ns

def add_node (g : RoadGraph) (i : String) (x y : ℚ) (kind : String) : RoadGraph :=
  { g with nodes := addNodeList i x y kind g.nodes }

/-- `G[u][v]` edge-attribute lookup. -/
def getEdge? (g : RoadGraph) (u v : String) : Option EdgeAttrs :=
  (g.edges.find? (fun e => e.src == u && e.tgt == v)).map GEdge.attrs

/-- Insert-or-replace on the edge list, keyed by the ordered node pair
(`nx.DiGraph.add_edge` updates an existing edge's attributes in place; all
call sites pass the full attribute set, so the update is a replacement). -/
def addEdgeList (u v : String) (a : EdgeAttrs) : List GEdge → List GEdge
  | [] => [⟨u, v, a⟩]
  | e :: es => if e.src == u && e.tgt == v then ⟨u, v, a⟩ :: es else e :: addEdgeList u v a es

def add_edge (g : RoadGraph) (u v : String) (a : EdgeAttrs) : RoadGraph :=
  { g with edges := addEdgeList u v a g.edges }

/-- `graph.neighbors(u)` for a `DiGraph`: the successors of `u`, in edge
insertion order.  (networkx raises for a node not in the graph; no code path
exercised by the claims queries neighbours of an absent node.) -/
def neighbors (g : RoadGraph) (u : String) : List String :=
  (g.edges.filter (fun e => e.src == u)).map GEdge.tgt

/-- `VehicleSimulator.find_nearest_node`: full scan keeping the first node
strictly closer than the best so far (`distance < min_distance`), starting
from `min_distance = inf`; returns `none` on an empty node list exactly as
the Python function returns `None`. -/
def find_nearest_node (sqrtA : ℚ → ℚ) (g : RoadGraph) (p : Point) : Option String :=
  (g.nodes.foldl
    (fun best n =>
      let dist := sqrtA (d2 p (n.x, n.y))
      match best with
      | none => some (n.id, dist)
      | some (bi, bd) => if dist < bd then some (n.id, dist) else some (bi, bd))
    none).map Prod.fst

end RoadGraph

/-! ## Vehicles

The three vehicle classes share one structure; `police` records which
constructor built the vehicle (`isinstance(vehicle, PoliceCar)`).  Fields the
Python object only acquires at runtime (`handling_start_time`) are `Option`s;
the patrol fields exist only on police cars in Python and are never touched
by any code path for other vehicles.  The wall-clock `last_updated` field is
not part of the embedding (no claim concerns it). -/

structure EmergencyVehicle where
  vehicle_id : String
  vehicle_type : String
  facility_id : ℤ
  facility_name : String
  facility_location : Point
  status : String
  current_location : Point
  destination : Option Point
  route_nodes : List String
  route_geometry : List Point
  route_index : ℕ
  max_speed : ℚ
  current_speed : ℚ
  handling_start_time : Option ℚ
  handling_duration : ℚ
  police : Bool
  patrol_nodes : List String
  patrol_geometry : List Point
  patrol_index : ℕ
  patrol_speed : ℚ
deriving DecidableEq, Repr

/-- `EmergencyVehicle.__init__` (common part). -/
def mkBase (vid vt : String) (fid : ℤ) (fname : String) (floc : Point)
    (maxs : ℚ) (pol : Bool) : EmergencyVehicle :=
  { vehicle_id := vid, vehicle_type := vt, facility_id := fid
    facility_name := fname, facility_location := floc
    status := "idle", current_location := floc, destination := none
    route_nodes := [], route_geometry := [], route_index := 0
    max_speed := maxs, current_speed := 0
    handling_start_time := none, handling_duration := 0
    police := pol, patrol_nodes := [], patrol_geometry := []
    patrol_index := 0, patrol_speed := 40 }

def mkFireTruck (vid : String) (fid : ℤ) (fname : String) (floc : Point) : EmergencyVehicle :=
  mkBase vid "fire_truck" fid fname floc 80 false

def mkAmbulance (vid : String) (fid : ℤ) (fname : String) (floc : Point) : EmergencyVehicle :=
  mkBase vid "ambulance" fid fname floc 90 false

def mkPoliceCar (vid : String) (fid : ℤ) (fname : String) (floc : Point) : EmergencyVehicle :=
  mkBase vid "police_car" fid fname floc 120 true

namespace EmergencyVehicle

/-- `_update_route_geometry`: convert node ids to coordinates.  The Python
loop appends coordinates until a node id missing from the graph raises
`KeyError`; the second component records whether that exception occurred,
the first holds whatever was appended before it. -/
def _update_route_geometry (g : RoadGraph) : List String → List Point × Bool
  | [] => ([], false)
  | n :: ns =>
    match g.nodeXY? n with
    | none => ([], true)
    | some p =>
      let r := _update_route_geometry g ns
      (p :: r.1, r.2)

/-- `start_response`.  Mutations happen in source order: status, destination,
route, cursor, speed are set before `_update_route_geometry` runs, so they
persist even when the geometry conversion raises (second component `some`).
-/
def start_response (g : RoadGraph) (dest : Point) (route : List String)
    (v : EmergencyVehicle) : EmergencyVehicle × Option String :=
  let geo := _update_route_geometry g route
  ({ v with status := "responding", destination := some dest
            route_nodes := route, route_index := 0
            current_speed := v.max_speed, route_geometry := geo.1 },
   if geo.2 then some "KeyError" else none)

/-- `return_to_facility` (return speed is `0.7 * max_speed`). -/
def return_to_facility (g : RoadGraph) (route : List String)
    (v : EmergencyVehicle) : EmergencyVehicle × Option String :=
  let geo := _update_route_geometry g route
  ({ v with status := "returning", destination := some v.facility_location
            route_nodes := route, route_index := 0
            current_speed := v.max_speed * (7 / 10), route_geometry := geo.1 },
   if geo.2 then some "KeyError" else none)

/-- `arrive_at_facility`. -/
def arrive_at_facility (v : EmergencyVehicle) : EmergencyVehicle :=
  { v with status := "idle", current_location := v.facility_location
           destination := none, route_nodes := [], route_geometry := []
           current_speed := 0 }

/-- `arrive_at_destination(current_simulated_time)`. -/
def arrive_at_destination (t : ℚ) (v : EmergencyVehicle) : EmergencyVehicle :=
  if v.status = "responding" then
    { v with status := "handling", handling_start_time := some t
             handling_duration := 600, current_speed := 0
             route_nodes := [], route_geometry := [] }
  else if v.status = "returning" then arrive_at_facility v
  else v

/-- `update_movement(graph, simulated_time_step, current_simulated_time)`.
The `graph` argument is unused by the source body as well.  The entry guard
`route_index >= len(route_geometry)` calls `arrive_at_destination()` with its
required `current_simulated_time` argument missing, which raises `TypeError`
before any mutation — modelled by the `some "TypeError"` result with the
vehicle unchanged. -/
def update_movement (sqrtA : ℚ → ℚ) (_g : RoadGraph) (step t : ℚ)
    (v : EmergencyVehicle) : EmergencyVehicle × Option String :=
  if ¬(v.status = "responding" ∨ v.status = "returning") ∨ v.route_nodes = [] then
    (v, none)
  else if v.route_geometry.length ≤ v.route_index then
    (v, some "TypeError")
  else
    let target := v.route_geometry.getD v.route_index (0, 0)
    let maxd := v.current_speed * 1000 / 3600 * step
    let dx := target.1 - v.current_location.1
    let dy := target.2 - v.current_location.2
    let dist := sqrtA (dx ^ 2 + dy ^ 2)
    let v1 :=
      if dist ≤ maxd then
        { v with current_location := target, route_index := v.route_index + 1 }
      else
        { v with current_location :=
            (v.current_location.1 + dx * (maxd / dist),
             v.current_location.2 + dy * (maxd / dist)) }
    if v1.route_geometry.length ≤ v1.route_index then (arrive_at_destination t v1, none)
    else (v1, none)

end EmergencyVehicle

namespace PoliceCar

/-- `_update_patrol_geometry` has the same body as `_update_route_geometry`
(targeting the patrol fields); it is reused here. -/
def _update_patrol_geometry (g : RoadGraph) (ns : List String) : List Point × Bool :=
  EmergencyVehicle._update_route_geometry g ns

/-- `start_patrol`: a no-op unless the car is idle.  Inside the idle branch
source order is: status, patrol_nodes, geometry conversion, speed — so a
`KeyError` in the conversion leaves the speed not yet updated.  The commented
out `patrol_index = 0` of the source is likewise absent here: the cursor is
not reset. -/
def start_patrol (g : RoadGraph) (ns : List String)
    (v : EmergencyVehicle) : EmergencyVehicle × Option String :=
  if v.status = "idle" then
    let geo := _update_patrol_geometry g ns
    if geo.2 then
      ({ v with status := "patrolling", patrol_nodes := ns, patrol_geometry := geo.1 },
       some "KeyError")
    else
      ({ v with status := "patrolling", patrol_nodes := ns, patrol_geometry := geo.1
                current_speed := v.patrol_speed }, none)
  else (v, none)

/-- `update_patrol(graph, simulated_time_step)`.  `patrol_geometry[patrol_index]`
raises `IndexError` when the cursor is out of range (reachable because
`start_patrol` never resets it); the indexing happens before any mutation. -/
def update_patrol (sqrtA : ℚ → ℚ) (_g : RoadGraph) (step : ℚ)
    (v : EmergencyVehicle) : EmergencyVehicle × Option String :=
  if v.status = "patrolling" ∧ v.patrol_geometry ≠ [] then
    let maxd := v.current_speed * 1000 / 3600 * step
    if v.patrol_geometry.length ≤ v.patrol_index then (v, some "IndexError")
    else
      let target := v.patrol_geometry.getD v.patrol_index (0, 0)
      let dx := target.1 - v.current_location.1
      let dy := target.2 - v.current_location.2
      let dist := sqrtA (dx ^ 2 + dy ^ 2)
      if dist ≤ maxd then
        ({ v with current_location := target
                  patrol_index := (v.patrol_index + 1) % v.patrol_geometry.length }, none)
      else
        ({ v with current_location :=
            (v.current_location.1 + dx * (maxd / dist),
             v.current_location.2 + dy * (maxd / dist)) }, none)
  else (v, none)

/-- `end_patrol` (defined in the source but never invoked by any caller). -/
def end_patrol (v : EmergencyVehicle) : EmergencyVehicle :=
  { v with status := "idle", patrol_nodes := [], patrol_geometry := []
           current_speed := 0 }

end PoliceCar

/-- The dictionary produced by `EmergencyVehicle.get_state` (sans the
wall-clock `last_updated`). -/
structure VehicleState where
  vehicle_id : String
  vehicle_type : String
  facility_id : ℤ
  facility_name : String
  status : String
  location : Point
  speed : ℚ
  route_nodes : List String
deriving DecidableEq, Repr

def EmergencyVehicle.get_state (v : EmergencyVehicle) : VehicleState :=
  { vehicle_id := v.vehicle_id, vehicle_type := v.vehicle_type
    facility_id := v.facility_id, facility_name := v.facility_name
    status := v.status, location := v.current_location
    speed := v.current_speed, route_nodes := v.route_nodes }

/-! ## Simulator

`VehicleSimulator` state and operations.  Randomness (`random.choice`) is
abstracted as a `pick` function choosing an element of a nonempty list, and
`nx.shortest_path` as an `sp` oracle returning the route (or `none` where the
library would raise `NetworkXNoPath`). -/

/-- One row of the facilities GeoDataFrame, after the preprocessing renames:
`idx` is the positional index (`int(facility.name)`), `description` the
`BUILDING_D` column, `ftype` the `BUILDING_T` column, `location` the
geometry point. -/
structure Facility where
  idx : ℤ
  description : String
  ftype : String
  location : Point
deriving DecidableEq, Repr

/-- Substring test on character lists (Python's `"Fire" in facility_type`). -/
def hasSubSeq (pat : List Char) : List Char → Bool
  | [] => pat.isEmpty
  | c :: cs => pat.isPrefixOf (c :: cs) || hasSubSeq pat cs

/-- Python `pat in s` on strings. -/
def strIn (pat s : String) : Bool := hasSubSeq pat.data s.data

/-- `VehicleSimulator.generate_patrol_route(start_location, max_nodes=10)`:
random walk over graph successors starting from the node nearest to
`start`, stopping early when a node has no successor.  `pick` stands for
`random.choice`. -/
def generate_patrol_route (sqrtA : ℚ → ℚ) (pick : List String → String)
    (g : RoadGraph) (start : Point) : List String :=
  let rec walk : ℕ → Option String → List String → List String
    | 0, _, acc => acc.reverse
    | fuel + 1, cur, acc =>
      let nbrs := match cur with
        | none => []
        | some c => g.neighbors c
      if nbrs = [] then acc.reverse
      else
        let nxt := pick nbrs
        walk fuel (some nxt) (nxt :: acc)
  walk 10 (RoadGraph.find_nearest_node sqrtA g start) []

/-- `VehicleSimulator.initialize_vehicles`: per-facility quotas — one fire
truck per fire station, four ambulances per ambulance/paramedic facility,
five police cars per police station, each police car immediately given an
initial patrol.  The running `vehicle_id` counter starts at 1.  The
`facility_name` uses the `description` column (present in the processed
data).  `start_patrol` cannot fail here for a member-choosing `pick`, since
patrol nodes come from the graph; its error output is not re-raised by the
source either way (there is none: the Python call simply mutates). -/
def initialize_vehicles (sqrtA : ℚ → ℚ) (pick : List String → String)
    (g : RoadGraph) (facilities : List Facility) : List EmergencyVehicle :=
  let rec go : List Facility → ℕ → List EmergencyVehicle → List EmergencyVehicle
    | [], _, acc => acc.reverse
    | f :: fs, vid, acc =>
      if strIn "Fire" f.ftype then
        let t := mkFireTruck ("FT-" ++ toString vid) f.idx f.description f.location
        go fs (vid + 1) (t :: acc)
      else if strIn "Ambulance" f.ftype || strIn "Paramedic" f.ftype then
        let a1 := mkAmbulance ("AMB-" ++ toString vid) f.idx f.description f.location
        let a2 := mkAmbulance ("AMB-" ++ toString (vid + 1)) f.idx f.description f.location
        let a3 := mkAmbulance ("AMB-" ++ toString (vid + 2)) f.idx f.description f.location
        let a4 := mkAmbulance ("AMB-" ++ toString (vid + 3)) f.idx f.description f.location
        go fs (vid + 4) (a4 :: a3 :: a2 :: a1 :: acc)
      else if strIn "Police" f.ftype then
        let mk1 := fun (n : ℕ) =>
          let p := mkPoliceCar ("POL-" ++ toString n) f.idx f.description f.location
          (PoliceCar.start_patrol g (generate_patrol_route sqrtA pick g f.location) p).1
        go fs (vid + 5)
          (mk1 (vid + 4) :: mk1 (vid + 3) :: mk1 (vid + 2) :: mk1 (vid + 1) :: mk1 vid :: acc)
      else go fs vid acc
  go facilities 1 []

/-- The simulator's mutable state (the persistence path and thread plumbing
are not part of the embedding). -/
structure SimState where
  graph : RoadGraph
  vehicles : List EmergencyVehicle
  simulated_time : ℚ
  real_time_step : ℚ
  simulation_speed : ℚ
deriving DecidableEq, Repr

/-- `VehicleSimulator(...)` followed by `initialize_vehicles()`: simulated
time 0, real time step 1 s, speed multiplier 100. -/
def initState (sqrtA : ℚ → ℚ) (pick : List String → String)
    (g : RoadGraph) (facilities : List Facility) : SimState :=
  { graph := g, vehicles := initialize_vehicles sqrtA pick g facilities
    simulated_time := 0, real_time_step := 1, simulation_speed := 100 }

/-- `VehicleSimulator.get_vehicle_by_id` — first vehicle with the id. -/
def get_vehicle_by_id (vs : List EmergencyVehicle) (vid : String) :
    Option EmergencyVehicle :=
  vs.find? (fun v => v.vehicle_id == vid)

/-- `VehicleSimulator.get_available_vehicles(vehicle_type, facility_id)`:
optional filters, applied only when the Python value is truthy (an empty
string or a zero id is falsy and skips its filter), then drop vehicles in
`responding` or `handling`. -/
def get_available_vehicles (vs : List EmergencyVehicle)
    (vehicle_type : Option String) (facility_id : Option ℤ) :
    List EmergencyVehicle :=
  let vs1 : List EmergencyVehicle := match vehicle_type with
    | some t => if t ≠ "" then vs.filter (fun v => v.vehicle_type == t) else vs
    | none => vs
  let vs2 : List EmergencyVehicle := match facility_id with
    | some f => if f ≠ 0 then vs1.filter (fun v => v.facility_id == f) else vs1
    | none => vs1
  vs2.filter (fun v => ¬(v.status == "responding" || v.status == "handling"))

/-- The per-vehicle branch of `VehicleSimulator.simulation_loop`.  Returns
the (possibly partially) updated vehicle and, when the Python body would
raise, the exception: an exception aborts the whole tick. -/
def tickVehicle (sqrtA : ℚ → ℚ)
    (sp : RoadGraph → String → String → Option (List String))
    (pick : List String → String) (g : RoadGraph) (now step : ℚ)
    (v : EmergencyVehicle) : EmergencyVehicle × Option String :=
  if v.status = "responding" ∨ v.status = "returning" then
    EmergencyVehicle.update_movement sqrtA g step now v
  else if v.police = true ∧ v.status = "patrolling" then
    PoliceCar.update_patrol sqrtA g step v
  else if v.status = "handling" then
    match v.handling_start_time with
    | none => (v, some "AttributeError")
    | some st =>
      if st + v.handling_duration ≤ now then
        match RoadGraph.find_nearest_node sqrtA g v.current_location,
              RoadGraph.find_nearest_node sqrtA g v.facility_location with
        | some cur, some fac =>
          match sp g cur fac with
          | some route => EmergencyVehicle.return_to_facility g route v
          | none => (v, some "NetworkXNoPath")
        | _, _ => (v, some "NodeNotFound")
      else (v, none)
  else if v.status = "idle" ∧ v.police = true then
    PoliceCar.start_patrol g (generate_patrol_route sqrtA pick g v.facility_location) v
  else (v, none)

/-- The vehicle-update loop of one tick: vehicles are updated in order; the
first exception aborts the loop (and the simulation thread), leaving the
remaining vehicles and the simulated clock untouched. -/
def tickLoop (sqrtA : ℚ → ℚ)
    (sp : RoadGraph → String → String → Option (List String))
    (pick : List String → String) (g : RoadGraph) (now step : ℚ) :
    List EmergencyVehicle → List EmergencyVehicle × Option String
  | [] => ([], none)
  | v :: vs =>
    let r := tickVehicle sqrtA sp pick g now step v
    match r.2 with
    | some e => (r.1 :: vs, some e)
    | none =>
      let rest := tickLoop sqrtA sp pick g now step vs
      (r.1 :: rest.1, rest.2)

/-- One iteration of `simulation_loop`: `simulated_time_step = real_time_step
* simulation_speed`; update every vehicle; advance simulated time (skipped
when an exception killed the loop first). -/
def tick (sqrtA : ℚ → ℚ)
    (sp : RoadGraph → String → String → Option (List String))
    (pick : List String → String) (s : SimState) : SimState × Option String :=
  let step := s.real_time_step * s.simulation_speed
  let r := tickLoop sqrtA sp pick s.graph s.simulated_time step s.vehicles
  match r.2 with
  | some e => ({ s with vehicles := r.1 }, some e)
  | none => ({ s with vehicles := r.1, simulated_time := s.simulated_time + step }, none)

/-! ## Controller -/

/-- One entry of the controller's `status_history`. -/
structure HistEntry where
  timestamp : String
  vehicles : List VehicleState
deriving DecidableEq, Repr

/-- `VehicleController._capture_status` acting on the history list: append
the snapshot entry, then keep only the most recent 1440 entries
(`self.status_history[-1440:]`). -/
def _capture_status (history : List HistEntry) (ts : String)
    (vs : List EmergencyVehicle) : List HistEntry :=
  let h1 := history ++ [{ timestamp := ts, vehicles := vs.map EmergencyVehicle.get_state }]
  if 1440 < h1.length then h1.drop (h1.length - 1440) else h1

/-- The two `ValueError`s raised by `VehicleController.dispatch_vehicle`.
The spec names the second one `VehicleUnavailableError` and the first
`NotFoundError`. -/
inductive CtrlError where
  | notFound
  | vehicleUnavailable
  | keyError
deriving DecidableEq, Repr

/-- Replace the first vehicle with the given id (Python mutates the object
`get_vehicle_by_id` returned, i.e. the first match). -/
def replaceFirstById (vs : List EmergencyVehicle) (vid : String)
    (v' : EmergencyVehicle) : List EmergencyVehicle :=
  match vs with
  | [] => []
  | v :: rest =>
    if v.vehicle_id == vid then v' :: rest
    else v :: replaceFirstById rest vid v'

/-- `VehicleController.dispatch_vehicle(vehicle_id, destination, route)`:
look the vehicle up, refuse when it is responding or handling
(`VehicleUnavailableError`), otherwise `start_response` it and capture a
history snapshot.  A `KeyError` escaping `start_response` leaves the
partially mutated vehicle in place and skips the capture. -/
def ctrl_dispatch (g : RoadGraph) (vs : List EmergencyVehicle)
    (history : List HistEntry) (ts : String) (vid : String) (dest : Point)
    (route : List String) :
    (List EmergencyVehicle × List HistEntry) × Option CtrlError :=
  match get_vehicle_by_id vs vid with
  | none => ((vs, history), some .notFound)
  | some v =>
    if v.status = "responding" ∨ v.status = "handling" then
      ((vs, history), some .vehicleUnavailable)
    else
      let r := EmergencyVehicle.start_response g dest route v
      let vs' := replaceFirstById vs vid r.1
      match r.2 with
      | some _ => ((vs', history), some .keyError)
      | none => ((vs', _capture_status history ts vs'), none)

/-! ## API dispatch -/

/-- Request-level errors of `api.dispatch_vehicle`.  The spec names the 404
"No available ... vehicles" response `NoAvailableVehicleError` and the 400
"No path available" response `NoPathError`; controller errors and other
exceptions surface as HTTP 500. -/
inductive ApiError where
  | noAvailableVehicle
  | noPath
  | ctrl (e : CtrlError)
  | internal
deriving DecidableEq, Repr

/-- The `closest_vehicle = min(available_vehicles, key=...)` selection of
`api.dispatch_vehicle`: Python's `min` keeps the first element among equal
keys, i.e. a left fold replacing the best only on a strictly smaller key.
The key is the Euclidean distance `((vx-x)**2 + (vy-y)**2)**0.5`, whose
square root is the abstracted `sqrtA`.  `none` exactly when the list is
empty (where `min` would raise). -/
def closest_vehicle (sqrtA : ℚ → ℚ) (dest : Point) :
    List EmergencyVehicle → Option EmergencyVehicle
  | [] => none
  | v :: vs =>
    some (vs.foldl
      (fun best w =>
        if sqrtA (d2 w.current_location dest) < sqrtA (d2 best.current_location dest)
        then w else best) v)

/-- `api.dispatch_vehicle(request)`.  `toProj` abstracts the pyproj CRS
transform of the request coordinates; `sp` abstracts `nx.shortest_path`.
Returns the updated simulator state and history, plus the error (if any);
mutations performed before an exception persist. -/
def api_dispatch (sqrtA : ℚ → ℚ)
    (sp : RoadGraph → String → String → Option (List String))
    (toProj : Point → Point) (s : SimState) (history : List HistEntry)
    (ts : String) (vehicle_type : String) (dest : Point) :
    (SimState × List HistEntry) × Option ApiError :=
  let xy := toProj dest
  let avail := get_available_vehicles s.vehicles (some vehicle_type) none
  match closest_vehicle sqrtA xy avail with
  | none => ((s, history), some .noAvailableVehicle)
  | some closest =>
    match RoadGraph.find_nearest_node sqrtA s.graph closest.current_location,
          RoadGraph.find_nearest_node sqrtA s.graph xy with
    | some origin, some nearest =>
      match sp s.graph origin nearest with
      | none => ((s, history), some .noPath)
      | some route =>
        let r := ctrl_dispatch s.graph s.vehicles history ts
                   closest.vehicle_id xy route
        match r.2 with
        | some e => (({ s with vehicles := r.1.1 }, r.1.2), some (.ctrl e))
        | none =>
          -- building the response sums `graph.edges[u, v]['travel_time']`
          -- over consecutive route nodes; a missing edge raises (HTTP 500)
          -- after the dispatch has already been committed
          if (route.zip route.tail).all
              (fun q => (s.graph.getEdge? q.1 q.2).isSome) then
            (({ s with vehicles := r.1.1 }, r.1.2), none)
          else
            (({ s with vehicles := r.1.1 }, r.1.2), some .internal)
    | _, _ => ((s, history), some .internal)

/-! ## Reachable simulator states (for the location/status invariant)

The operations the claim quantifies over: fleet initialization, simulation
ticks, and dispatches (the api entry point, which performs the patrol updates
of police cars inside the tick).  `pick` is chosen afresh at each step,
over-approximating `random.choice`. -/

inductive Reachable (sqrtA : ℚ → ℚ)
    (sp : RoadGraph → String → String → Option (List String))
    (toProj : Point → Point) : SimState → Prop where
  | init (pick : List String → String) (g : RoadGraph)
      (facilities : List Facility) :
      Reachable sqrtA sp toProj (initState sqrtA pick g facilities)
  | tick (pick : List String → String) {s : SimState} :
      Reachable sqrtA sp toProj s →
      Reachable sqrtA sp toProj (tick sqrtA sp pick s).1
  | dispatch (history : List HistEntry) (ts vehicle_type : String)
      (dest : Point) {s : SimState} :
      Reachable sqrtA sp toProj s →
      Reachable sqrtA sp toProj
        (api_dispatch sqrtA sp toProj s history ts vehicle_type dest).1.1

/-! ## Graph builder (`data_processing.create_road_network_graph`) -/

/-- One row of the junctions GeoDataFrame after preprocessing: the
`node_id` column and the point geometry. -/
structure Junction where
  node_id : String
  x : ℚ
  y : ℚ
deriving DecidableEq, Repr

/-- One row of the roads GeoDataFrame after preprocessing: the DataFrame
index label (`road_id, road = batch.iterrows()`), the `speed_limit` column
(`none` models a missing / NaN value), the `traffic_direction` column and
the LineString coordinates. -/
structure Road where
  label : ℤ
  speed_limit : Option ℚ
  traffic_direction : String
  coords : List Point
deriving DecidableEq, Repr

/-- Python's `round(x, 2)` rounds to two decimals with ties to even. -/
def roundHalfEven (q : ℚ) : ℤ :=
  let f := ⌊q⌋
  let r := q - f
  if r < 1 / 2 then f
  else if 1 / 2 < r then f + 1
  else if f % 2 = 0 then f else f + 1

def round2 (q : ℚ) : ℚ := (roundHalfEven (q * 100) : ℚ) / 100

/-- `junction_points` dictionary lookup. -/
def dictGet (d : List (Point × String)) (k : Point) : Option String :=
  (d.find? (fun e => decide (e.1 = k))).map Prod.snd

/-- `junction_points[k] = v`: replace in place or append (dict semantics). -/
def dictInsert (k : Point) (v : String) : List (Point × String) → List (Point × String)
  | [] => [(k, v)]
  | e :: es => if e.1 = k then (k, v) :: es else e :: dictInsert k v es

/-- The builder's mutable state: the graph under construction, the
`junction_points` rounded-coordinate dictionary, and the `node_counter`
used for synthesized `R_<n>` road vertices. -/
structure BuildState where
  graph : RoadGraph
  junction_points : List (Point × String)
  node_counter : ℕ
deriving DecidableEq, Repr

/-- Phase 1 of the builder: register one junction — graph node `J_<id>`
plus the rounded-coordinate dictionary entry. -/
def addJunctionNode (st : BuildState) (j : Junction) : BuildState :=
  let nid := "J_" ++ j.node_id
  { graph := st.graph.add_node nid j.x j.y "junction"
    junction_points := dictInsert (round2 j.x, round2 j.y) nid st.junction_points
    node_counter := st.node_counter }

/-- `junction_tree.query([[x, y]], k=1)`: the nearest junction by Euclidean
distance (first-in-order among exact ties, which the k-d tree leaves
implementation-defined; no claim depends on the tie order).  Returns the
junction's `node_id` column and the distance. -/
def kdQuery (sqrtA : ℚ → ℚ) (junctions : List Junction) (p : Point) :
    Option (String × ℚ) :=
  junctions.foldl
    (fun best j =>
      let dist := sqrtA (d2 p (j.x, j.y))
      match best with
      | none => some (j.node_id, dist)
      | some (bi, bd) => if dist < bd then some (j.node_id, dist) else some (bi, bd))
    none

/-- `speed_kph = road['speed_limit'] if road['speed_limit'] and
road['speed_limit'] > 0 else 40.0` — a missing (NaN), zero, or non-positive
speed limit falls back to 40 km/h. -/
def effectiveSpeed (r : Road) : ℚ :=
  match r.speed_limit with
  | some s => if 0 < s then s else 40
  | none => 40

/-- Resolve one road coordinate to a node id: exact rounded-key dictionary
hit; else nearest-junction snap within `junction_tolerance = 1.0`; else a
fresh `R_<n>` node when the coordinate is an endpoint or a ~10% interior
sample, registered for future reuse; else no node (the coordinate is
skipped).  The k-d query compares `sqrt(d2) ≤ 1.0` as the source compares
`distances[0][0] <= junction_tolerance`. -/
def resolveNode (sqrtA : ℚ → ℚ) (junctions : List Junction) (st : BuildState)
    (xy : Point) (isEndpoint sampleHit : Bool) : BuildState × Option String :=
  let key := (round2 xy.1, round2 xy.2)
  match dictGet st.junction_points key with
  | some nid => (st, some nid)
  | none =>
    let fresh : BuildState × Option String :=
      if isEndpoint || sampleHit then
        let nid := "R_" ++ toString st.node_counter
        ({ graph := st.graph.add_node nid xy.1 xy.2 "road_vertex"
           junction_points := dictInsert key nid st.junction_points
           node_counter := st.node_counter + 1 }, some nid)
      else (st, none)
    match kdQuery sqrtA junctions xy with
    | some (jid, dist) => if dist ≤ 1 then (st, some ("J_" ++ jid)) else fresh
    | none => fresh

/-- The per-coordinate loop of the builder: walk the road's coordinates,
resolving each to a node (or skipping it), and collect `road_nodes` as
`(node_id, (x, y))` pairs. -/
def collectRoadNodes (sqrtA : ℚ → ℚ) (junctions : List Junction)
    (st : BuildState) (coords : List Point) :
    BuildState × List (String × Point) :=
  let n := coords.length
  let m := max 1 (n / 10)
  coords.enum.foldl
    (fun acc ix =>
      let i := ix.1
      let isEnd := i == 0 || i == n - 1
      let hit := i % m == 0
      let r := resolveNode sqrtA junctions acc.1 ix.2 isEnd hit
      match r.2 with
      | some nid => (r.1, acc.2 ++ [(nid, ix.2)])
      | none => (r.1, acc.2))
    (st, [])

/-- The per-segment loop of the builder: connect consecutive road nodes,
skipping self-loops; the edge carries the road label, the segment length,
the effective speed, `travel_time = (length/1000) / (speed/60)` and the
segment geometry (the whole road polyline when first and last node bound a
single segment).  For a bidirectional road the mirror edge is added with
the attributes read back from the just-written forward edge
(`G.add_edge(end_id, start_id, **G[start_id][end_id])`). -/
def addSegment (sqrtA : ℚ → ℚ) (road : Road) (rnLen : ℕ) (g' : RoadGraph)
    (iseg : ℕ × ((String × Point) × (String × Point))) : RoadGraph :=
  let i := iseg.1
  let sid := iseg.2.1.1
  let sc := iseg.2.1.2
  let eid := iseg.2.2.1
  let ec := iseg.2.2.2
  if sid = eid then g'
  else
    let seglen := sqrtA ((ec.1 - sc.1) ^ 2 + (ec.2 - sc.2) ^ 2)
    let speed := effectiveSpeed road
    let tt := seglen / 1000 / (speed / 60)
    let geom := if i = 0 ∧ i + 1 = rnLen - 1 then road.coords else [sc, ec]
    let a : EdgeAttrs :=
      { road_id := road.label, length := seglen, speed := speed
        travel_time := tt, geometry := geom }
    let g1 := g'.add_edge sid eid a
    if road.traffic_direction = "Both directions" then
      match g1.getEdge? sid eid with
      | some a' => g1.add_edge eid sid a'
      | none => g1
    else g1

def addSegments (sqrtA : ℚ → ℚ) (road : Road) (rn : List (String × Point))
    (g : RoadGraph) : RoadGraph :=
  (rn.zip rn.tail).enum.foldl (addSegment sqrtA road rn.length) g

/-- Process one road: roads whose geometry has fewer than 2 coordinate
points are skipped silently (`continue`), as are roads that resolve to
fewer than 2 nodes. -/
def processRoad (sqrtA : ℚ → ℚ) (junctions : List Junction)
    (st : BuildState) (road : Road) : BuildState :=
  if road.coords.length < 2 then st
  else
    let r := collectRoadNodes sqrtA junctions st road.coords
    if r.2.length < 2 then r.1
    else { r.1 with graph := addSegments sqrtA road r.2 r.1.graph }

/-- `create_road_network_graph(roads_gdf, junctions_gdf)`.  Building the
k-d tree over an empty junction array raises (`ValueError`), modelled as the
error result; otherwise the build always completes and returns the graph.
Batching (`batch_size = 1000`) only chunks the same left-to-right iteration
and is not represented. -/
def buildInit (junctions : List Junction) : BuildState :=
  junctions.foldl addJunctionNode ⟨RoadGraph.empty, [], 0⟩

def create_road_network_graph (sqrtA : ℚ → ℚ) (roads : List Road)
    (junctions : List Junction) : Except String RoadGraph :=
  if junctions.isEmpty then .error "ValueError"
  else .ok (roads.foldl (processRoad sqrtA junctions) (buildInit junctions)).graph

/-! ## The location/status claim and concrete scenarios

`locationStatusClaim` states claim C9 verbatim; the concrete states below are
small reachable scenarios used to settle the claims on explicit inputs.  The
abstracted machine functions are instantiated with `idQ` (for the square
root: any strictly monotone nonnegative-preserving function refutes the
universally quantified claims; the traces are arranged so that the control
flow agrees with the true square root), `spEq` (a faithful
`nx.shortest_path` for the one-node queries that occur: the shortest path
from a node to itself is `[node]`) and `pickHead` (a `random.choice` that
picks the head — the neighbour lists in the scenarios are singletons, so
every choice function agrees). -/

/-- The invariant asserted by the spec: location on the route polyline while
responding/returning, on the patrol polyline while patrolling, at the home
facility while idle or handling. -/
def locationStatusClaim (s : SimState) : Prop :=
  ∀ v ∈ s.vehicles,
    ((v.status = "responding" ∨ v.status = "returning") →
      onPolyline v.current_location v.route_geometry) ∧
    (v.status = "patrolling" → onPolyline v.current_location v.patrol_geometry) ∧
    ((v.status = "idle" ∨ v.status = "handling") →
      v.current_location = v.facility_location)

instance (s : SimState) : Decidable (locationStatusClaim s) := by
  unfold locationStatusClaim; infer_instance

def idQ : ℚ → ℚ := fun q => q

def pickHead : List String → String := fun l => l.headD ""

def spEq : RoadGraph → String → String → Option (List String) :=
  fun _ a b => if a = b then some [a] else none

/-- A responding vehicle standing exactly on its current target waypoint
(the state used to refute the zero-time-step claim). -/
def vAtWaypoint : EmergencyVehicle :=
  { mkFireTruck "FT-1" 0 "Fire Station 1" (5, 5) with
      status := "responding", current_location := (0, 0)
      destination := some (0, 0), route_nodes := ["n0"]
      route_geometry := [(0, 0)], route_index := 0, current_speed := 80 }

/-- A patrolling police car (used for the `start_patrol` no-op claim). -/
def vPatrolling : EmergencyVehicle :=
  { mkPoliceCar "POL-1" 0 "Police Station 1" (5, 5) with
      status := "patrolling", current_location := (3, 3)
      patrol_nodes := ["n0"], patrol_geometry := [(0, 0)]
      current_speed := 40 }

/-- One-node road graph: the node `n0` at the origin. -/
def gFire : RoadGraph := ⟨[⟨"n0", 0, 0, "junction"⟩], []⟩

def facFire : Facility := ⟨0, "Fire Station 1", "Fire Station", (1, 1)⟩

/-- Fleet initialization for the single fire station: one idle fire truck
at the facility. -/
def stateFire0 : SimState := initState idQ pickHead gFire [facFire]

/-- After dispatching the fire truck to the origin: it responds along the
route `[n0]`, still standing at the facility `(1, 1)`. -/
def stateFireA : SimState :=
  (api_dispatch idQ spEq id stateFire0 [] "t0" "fire_truck" (0, 0)).1.1

/-- After one simulation tick: the truck reached `n0`, arrived, and is now
handling at `(0, 0)` — not at its home facility `(1, 1)`. -/
def stateFireB : SimState := (tick idQ spEq pickHead stateFireA).1

/-- Two-node graph with edges both ways (so the patrol walk alternates
`n1, n0, n1, ...`). -/
def gPol : RoadGraph :=
  ⟨[⟨"n0", 0, 0, "junction"⟩, ⟨"n1", 10, 0, "junction"⟩],
   [⟨"n0", "n1", ⟨0, 10, 40, 3 / 200, []⟩⟩, ⟨"n1", "n0", ⟨0, 10, 40, 3 / 200, []⟩⟩]⟩

def facPol : Facility := ⟨0, "Police Station 1", "Police Station", (1, 1)⟩

/-- Fleet initialization for the police station: five patrolling cars at
the facility `(1, 1)`, whose patrol polyline runs along the x-axis. -/
def statePol : SimState := initState idQ pickHead gPol [facPol]

/-- Three available fire trucks at Euclidean distances 5, 2 and 8 from the
origin (the dispatch-selection scenario of the spec). -/
def fleetDistances : List EmergencyVehicle :=
  [mkFireTruck "FT-1" 0 "A" (5, 0), mkFireTruck "FT-2" 0 "B" (2, 0),
   mkFireTruck "FT-3" 0 "C" (8, 0)]

/-- A fully busy one-truck fleet (for the no-available-vehicle claim). -/
def busyTruck : EmergencyVehicle :=
  { mkFireTruck "FT-1" 0 "Fire Station 1" (1, 1) with status := "responding" }

def busyFleet : List EmergencyVehicle := [busyTruck]

def stateBusy : SimState :=
  { graph := gFire, vehicles := busyFleet, simulated_time := 0
    real_time_step := 1, simulation_speed := 100 }

/-- Modelled from the spec's words for the refinement claim C2: "Select the
candidate minimizing Euclidean distance from its current location to the
destination (ties broken by iteration order — first minimum found)" — the
first list element whose distance to the destination is least (minimizing
the Euclidean distance is equivalent to minimizing its square, which keeps
the definition inside ℚ). -/
def firstMinByDistance (dest : Point) (vs : List EmergencyVehicle) :
    Option EmergencyVehicle :=
  vs.find? (fun v =>
    vs.all (fun w => decide (d2 v.current_location dest ≤ d2 w.current_location dest)))

/-- Builder scenario for the bidirectional-mirror claim: two junctions 1000
apart; road 0 runs `J1 → J2` bidirectionally with speed limit 50; road 1
runs `J2 → J1` one-way with speed limit 30, overwriting the mirror edge's
attributes. -/
def junsC7 : List Junction := [⟨"J1", 0, 0⟩, ⟨"J2", 1000, 0⟩]

def roadsC7 : List Road :=
  [⟨0, some 50, "Both directions", [(0, 0), (1000, 0)]⟩,
   ⟨1, some 30, "One direction", [(1000, 0), (0, 0)]⟩]

/-- Builder scenario for the degenerate-road claim: one junction and one
road whose geometry has a single coordinate point. -/
def junsC8 : List Junction := [⟨"X", 0, 0⟩]

def roadC8 : Road := ⟨7, some 50, "Both directions", [(5, 5)]⟩

/-- The graph built from the C7 scenario (also the concrete instance for the
edge-attribute claim): with `sqrtA = idQ` the stored length is the squared
distance 1000000, and `travel_time = (1000000/1000)/(50/60) = 1200` resp.
`(1000000/1000)/(30/60) = 2000`. -/
def gC7 : RoadGraph :=
  ⟨[⟨"J_J1", 0, 0, "junction"⟩, ⟨"J_J2", 1000, 0, "junction"⟩],
   [⟨"J_J1", "J_J2", ⟨0, 1000000, 50, 1200, [(0, 0), (1000, 0)]⟩⟩,
    ⟨"J_J2", "J_J1", ⟨1, 1000000, 30, 2000, [(1000, 0), (0, 0)]⟩⟩]⟩

/-- The idle fire truck produced by fleet initialization of `stateFire0`. -/
def truckInit : EmergencyVehicle := mkFireTruck "FT-1" 0 "Fire Station 1" (1, 1)

/-- A plain responding vehicle mid-route (witness input). -/
def vResponding : EmergencyVehicle :=
  { mkFireTruck "FT-9" 1 "Fire Station 2" (8, 8) with
      status := "responding", current_location := (4, 4)
      destination := some (0, 0), route_nodes := ["n0"]
      route_geometry := [(0, 0)], route_index := 0, current_speed := 80 }

/-- An idle one-truck fleet (witness input for the dispatch claims). -/
def idleFleet : List EmergencyVehicle := [truckInit]

/-- A history already holding exactly 1440 entries (witness input for the
history-cap claim). -/
def histFull : List HistEntry := List.replicate 1440 ⟨"t0", []⟩

/-- The fire truck of `stateFireA`: responding along the route `[n0]`,
still at its facility. -/
def vFireA : EmergencyVehicle :=
  { truckInit with status := "responding", destination := some (0, 0)
                   route_nodes := ["n0"], route_geometry := [(0, 0)]
                   route_index := 0, current_speed := 80 }

/-- The fire truck of `stateFireB`: handling at the arrival point `(0, 0)`,
away from its facility `(1, 1)`. -/
def vFireB : EmergencyVehicle :=
  { truckInit with status := "handling", current_location := (0, 0)
                   destination := some (0, 0), route_nodes := []
                   route_geometry := [], route_index := 1, current_speed := 0
                   handling_start_time := some 0, handling_duration := 600 }

/-- The alternating patrol polyline generated in `statePol`. -/
def polGeo : List Point :=
  [(10, 0), (0, 0), (10, 0), (0, 0), (10, 0), (0, 0), (10, 0), (0, 0), (10, 0), (0, 0)]

def polNodes : List String :=
  ["n1", "n0", "n1", "n0", "n1", "n0", "n1", "n0", "n1", "n0"]

/-- A patrolling police car of `statePol`, standing at the facility `(1, 1)`
off its patrol polyline (which runs along the x-axis). -/
def polCar (vid : String) : EmergencyVehicle :=
  { mkPoliceCar vid 0 "Police Station 1" (1, 1) with
      status := "patrolling", patrol_nodes := polNodes, patrol_geometry := polGeo
      current_speed := 40 }

/-- Both directed edges between `x` and `y` exist and agree on length,
speed and travel time. -/
def MirrorEq (g : RoadGraph) (x y : String) : Prop :=
  ∃ a b, g.getEdge? x y = some a ∧ g.getEdge? y x = some b ∧
    a.length = b.length ∧ a.speed = b.speed ∧ a.travel_time = b.travel_time

/-- The edge-attribute contract of the builder: the edge's attributes were
written by one of the input roads (speed: the road's positive speed limit or
the 40 km/h default; travel time derived from length and speed) and its two
endpoints exist as graph nodes. -/
def GoodEdge (roads : List Road) (g : RoadGraph) (e : GEdge) : Prop :=
  (∃ r ∈ roads, e.attrs.road_id = r.label ∧ e.attrs.speed = effectiveSpeed r) ∧
  e.attrs.travel_time = e.attrs.length / 1000 / (e.attrs.speed / 60) ∧
  g.hasNode e.src = true ∧ g.hasNode e.tgt = true

/-- Builder invariant: all edges satisfy the attribute contract, every id
registered in `junction_points` is a graph node, and every junction's
`J_<id>` node exists. -/
def BuildInv (roads : List Road) (junctions : List Junction)
    (st : BuildState) : Prop :=
  (∀ e ∈ st.graph.edges, GoodEdge roads st.graph e) ∧
  (∀ kv ∈ st.junction_points, st.graph.hasNode kv.2 = true) ∧
  (∀ j ∈ junctions, st.graph.hasNode ("J_" ++ j.node_id) = true)

/-- The forward edge of `gC7` (witness input for the edge-attribute claim). -/
def eC7 : GEdge := ⟨"J_J1", "J_J2", ⟨0, 1000000, 50, 1200, [(0, 0), (1000, 0)]⟩⟩

/-- The location/status invariant that actually holds: an idle vehicle
stands at its home facility. -/
def P9 (v : EmergencyVehicle) : Prop :=
  v.status = "idle" → v.current_location = v.facility_location

/-! ## Theorems -/

/-- C10: for every police car whose status is not "idle", `start_patrol`
raises no error and changes nothing — status, patrol_nodes,
patrol_geometry, current_speed and current_location are all unchanged. -/
theorem C10_start_patrol_noop (g : RoadGraph) (ns : List String)
    (v : EmergencyVehicle) (h : v.status ≠ "idle") :
    PoliceCar.start_patrol g ns v = (v, none) := by
  unfold PoliceCar.start_patrol
  rw [if_neg h]

theorem C10_start_patrol_noop_witness :
    PoliceCar.start_patrol gFire ["n0"] vPatrolling = (vPatrolling, none) :=
  C10_start_patrol_noop gFire ["n0"] vPatrolling (by decide)

/-- C1, counterexample: a responding vehicle standing exactly on its current
target waypoint changes status (to "handling") under a movement update with
`simulated_time_step = 0`, so a zero time step does not always leave status
and location unchanged. -/
theorem C1_counterexample :
    (EmergencyVehicle.update_movement idQ RoadGraph.empty 0 0 vAtWaypoint).1.status
      = "handling" ∧
    vAtWaypoint.status = "responding" ∧
    (EmergencyVehicle.update_movement idQ RoadGraph.empty 0 0 vAtWaypoint).2 = none := by
  norm_num +decide [EmergencyVehicle.update_movement, vAtWaypoint, mkFireTruck, mkBase,
    idQ, EmergencyVehicle.arrive_at_destination, List.getD]

/-- Squared distance between distinct points is positive. -/
theorem d2_pos_of_ne (a b : Point) (h : a ≠ b) :
    0 < (a.1 - b.1) ^ 2 + (a.2 - b.2) ^ 2 := by
  rcases eq_or_ne a.1 b.1 with h1 | h1
  · rcases eq_or_ne a.2 b.2 with h2 | h2
    · exact absurd (Prod.ext h1 h2) h
    · have : a.2 - b.2 ≠ 0 := sub_ne_zero_of_ne h2
      have h2p : 0 < (a.2 - b.2) ^ 2 := by positivity
      nlinarith [sq_nonneg (a.1 - b.1)]
  · have : a.1 - b.1 ≠ 0 := sub_ne_zero_of_ne h1
    have h1p : 0 < (a.1 - b.1) ^ 2 := by positivity
    nlinarith [sq_nonneg (a.2 - b.2)]

/-- C1, amended: with `simulated_time_step = 0`, `update_patrol` never
changes a vehicle's location or status; `update_movement` leaves both
unchanged except when a responding/returning vehicle with a nonempty route
stands exactly on its in-range target waypoint (the situation of the
counterexample, where the waypoint is consumed and arrival fires).
The hypothesis on `sqrtA` (positivity on positives) holds for the
machine's square root. -/
theorem C1_zero_step (sqrtA : ℚ → ℚ)
    (hpos : ∀ q : ℚ, 0 < q → 0 < sqrtA q) (g : RoadGraph) (t : ℚ)
    (v : EmergencyVehicle) :
    ((PoliceCar.update_patrol sqrtA g 0 v).1.current_location = v.current_location ∧
     (PoliceCar.update_patrol sqrtA g 0 v).1.status = v.status) ∧
    ((¬(v.status = "responding" ∨ v.status = "returning") ∨ v.route_nodes = [] ∨
        v.route_geometry.length ≤ v.route_index ∨
        v.route_geometry.getD v.route_index (0, 0) ≠ v.current_location) →
      (EmergencyVehicle.update_movement sqrtA g 0 t v).1.current_location =
        v.current_location ∧
      (EmergencyVehicle.update_movement sqrtA g 0 t v).1.status = v.status) := by
  have hmax : v.current_speed * 1000 / 3600 * 0 = 0 := mul_zero _
  constructor
  · simp only [PoliceCar.update_patrol, hmax]
    split_ifs with hc hidx hd
    · exact ⟨rfl, rfl⟩
    · -- snapping to the target: the zero-distance bound forces the vehicle
      -- to stand on the target already
      have htar : v.patrol_geometry.getD v.patrol_index (0, 0) = v.current_location := by
        by_contra hne
        have hp := d2_pos_of_ne (v.patrol_geometry.getD v.patrol_index (0, 0))
          v.current_location hne
        have := hpos _ hp
        linarith
      refine ⟨?_, rfl⟩
      dsimp
      exact htar
    · simp [zero_div]
    · exact ⟨rfl, rfl⟩
  · intro hside
    simp only [EmergencyVehicle.update_movement, hmax]
    split_ifs with hg hidx hd h4
    · exact ⟨rfl, rfl⟩
    · exact ⟨rfl, rfl⟩
    · -- the snap branch is impossible: the side condition leaves only the
      -- off-target case, where the distance is positive
      exfalso
      rcases hside with h | h | h | h
      · exact hg (Or.inl h)
      · exact hg (Or.inr h)
      · exact hidx h
      · have hp := hpos _ (d2_pos_of_ne _ _ h)
        linarith
    · exfalso
      rcases hside with h | h | h | h
      · exact hg (Or.inl h)
      · exact hg (Or.inr h)
      · exact hidx h
      · have hp := hpos _ (d2_pos_of_ne _ _ h)
        linarith
    · -- the moved branch: a zero travel budget leaves the location in place
      -- (and the arrival check cannot fire, the index did not advance)
      constructor
      · dsimp
        simp [zero_div]
      · rfl

theorem C1_zero_step_witness :
    ((PoliceCar.update_patrol idQ gFire 0 vResponding).1.current_location =
        vResponding.current_location ∧
     (PoliceCar.update_patrol idQ gFire 0 vResponding).1.status = vResponding.status) ∧
    ((EmergencyVehicle.update_movement idQ gFire 0 0 vResponding).1.current_location =
        vResponding.current_location ∧
     (EmergencyVehicle.update_movement idQ gFire 0 0 vResponding).1.status =
        vResponding.status) :=
  ⟨(C1_zero_step idQ (fun _ h => h) gFire 0 vResponding).1,
   (C1_zero_step idQ (fun _ h => h) gFire 0 vResponding).2
     (Or.inr (Or.inr (Or.inr
       (by norm_num [vResponding, List.getD, truckInit, mkFireTruck, mkBase,
             Prod.ext_iff]))))⟩

/-- C3: after every status capture the history holds at most 1440 entries,
and capturing with exactly 1440 entries stored drops the oldest entry,
appends the new one last and keeps the remaining entries in order. -/
theorem C3_history_cap (history : List HistEntry) (ts : String)
    (vs : List EmergencyVehicle) :
    (_capture_status history ts vs).length ≤ 1440 ∧
    (history.length = 1440 →
      _capture_status history ts vs =
        history.drop 1 ++ [⟨ts, vs.map EmergencyVehicle.get_state⟩]) := by
  simp only [_capture_status]
  have hlen :
      (history ++ [({ timestamp := ts, vehicles := vs.map EmergencyVehicle.get_state } :
        HistEntry)]).length = history.length + 1 := by
    simp
  constructor
  · split_ifs with h
    · rw [List.length_drop]
      omega
    · rw [hlen] at h ⊢
      omega
  · intro h1440
    rw [if_pos (by rw [hlen]; omega), hlen, h1440, Nat.add_sub_cancel_left,
        List.drop_append_of_le_length (by omega)]

theorem C3_history_cap_witness :
    (_capture_status histFull "t1" []).length ≤ 1440 ∧
    _capture_status histFull "t1" [] = histFull.drop 1 ++ [⟨"t1", []⟩] :=
  ⟨(C3_history_cap histFull "t1" []).1,
   (C3_history_cap histFull "t1" []).2 (by simp only [histFull, List.length_replicate])⟩

theorem d2_nonneg (a b : Point) : 0 ≤ d2 a b := by
  unfold d2; positivity

/-- Positional `find?` cons-unfolding lemmas (keeping the predicate
instantiation explicit). -/
theorem find_cons_pos {α : Type} (p : α → Bool) (a : α) (l : List α)
    (h : p a = true) : (a :: l).find? p = some a := by
  rw [List.find?_cons, h]

theorem find_cons_neg {α : Type} (p : α → Bool) (a : α) (l : List α)
    (h : p a = false) : (a :: l).find? p = l.find? p := by
  rw [List.find?_cons, h]

theorem find_congr {α : Type} (p q : α → Bool) (l : List α)
    (h : ∀ a ∈ l, p a = q a) : l.find? p = l.find? q := by
  induction l with
  | nil => rfl
  | cons x xs ih =>
    have hx := h x (by simp)
    rcases hq : q x with - | -
    · rw [find_cons_neg p x xs (hx.trans hq), find_cons_neg q x xs hq]
      exact ih fun a ha => h a (by simp [ha])
    · rw [find_cons_pos p x xs (hx.trans hq), find_cons_pos q x xs hq]

theorem foldlMin_eq_find {α : Type} (k : α → ℚ) (x : α) (xs : List α) :
    some (xs.foldl (fun b w => if k w < k b then w else b) x) =
    (x :: xs).find? (fun v => (x :: xs).all (fun w => decide (k v ≤ k w))) := by
  induction xs generalizing x with
  | nil => simp
  | cons y ys ih =>
    have hallT : ∀ (l : List α) (v : α),
        ((l.all fun w => decide (k v ≤ k w)) = true) ↔ ∀ w ∈ l, k v ≤ k w := by
      intro l v; simp
    have hallF : ∀ (l : List α) (v : α), (¬ ∀ w ∈ l, k v ≤ k w) →
        (l.all fun w => decide (k v ≤ k w)) = false := by
      intro l v hv
      rcases hb : (l.all fun w => decide (k v ≤ k w)) with - | -
      · rfl
      · exact absurd ((hallT l v).mp hb) hv
    simp only [List.foldl_cons]
    by_cases hxy : k y < k x
    · rw [if_pos hxy, ih y,
          find_cons_neg (fun v => (x :: y :: ys).all fun w => decide (k v ≤ k w)) x (y :: ys)
            (hallF _ _ (fun hall => absurd (hall y (by simp)) (not_le.mpr hxy)))]
      refine find_congr _ _ _ ?_
      intro a ha
      by_cases hta : ∀ w ∈ y :: ys, k a ≤ k w
      · have h2 : ∀ w ∈ x :: y :: ys, k a ≤ k w := by
          intro w hw
          rcases List.mem_cons.mp hw with rfl | hw'
          · exact le_trans (hta y (by simp)) (le_of_lt hxy)
          · exact hta w hw'
        show ((y :: ys).all fun w => decide (k a ≤ k w)) =
             ((x :: y :: ys).all fun w => decide (k a ≤ k w))
        rw [(hallT _ _).mpr hta, (hallT _ _).mpr h2]
      · show ((y :: ys).all fun w => decide (k a ≤ k w)) =
             ((x :: y :: ys).all fun w => decide (k a ≤ k w))
        rw [hallF _ _ hta,
            hallF _ _ (fun hall => hta (fun w hw => hall w (by simp [List.mem_cons.mp hw])))]
    · have hxy' : k x ≤ k y := not_lt.mp hxy
      rw [if_neg hxy, ih x]
      by_cases hqx : ∀ w ∈ x :: ys, k x ≤ k w
      · have h2 : ∀ w ∈ x :: y :: ys, k x ≤ k w := by
          intro w hw
          rcases List.mem_cons.mp hw with rfl | hw'
          · exact le_refl _
          · rcases List.mem_cons.mp hw' with rfl | hw''
            · exact hxy'
            · exact hqx w (by simp [hw''])
        rw [find_cons_pos (fun v => (x :: ys).all fun w => decide (k v ≤ k w)) x ys
              ((hallT _ _).mpr hqx),
            find_cons_pos (fun v => (x :: y :: ys).all fun w => decide (k v ≤ k w)) x (y :: ys)
              ((hallT _ _).mpr h2)]
      · obtain ⟨w0, hw0, hlt⟩ : ∃ w ∈ ys, k w < k x := by
          by_contra hno
          push_neg at hno
          refine hqx (fun w hw => ?_)
          rcases List.mem_cons.mp hw with rfl | hw'
          · exact le_refl _
          · exact hno w hw'
        rw [find_cons_neg (fun v => (x :: ys).all fun w => decide (k v ≤ k w)) x ys
              (hallF _ _ (fun hall => absurd (hall w0 (by simp [hw0])) (not_le.mpr hlt))),
            find_cons_neg (fun v => (x :: y :: ys).all fun w => decide (k v ≤ k w)) x (y :: ys)
              (hallF _ _ (fun hall => absurd (hall w0 (by simp [hw0])) (not_le.mpr hlt))),
            find_cons_neg (fun v => (x :: y :: ys).all fun w => decide (k v ≤ k w)) y ys
              (hallF _ _ (fun hall => absurd (hall w0 (by simp [hw0]))
                (not_le.mpr (lt_of_lt_of_le hlt hxy'))))]
        refine find_congr _ _ _ ?_
        intro a ha
        by_cases hak : k a ≤ k x
        · show ((x :: ys).all fun w => decide (k a ≤ k w)) =
               ((x :: y :: ys).all fun w => decide (k a ≤ k w))
          simp only [List.all_cons, decide_eq_true_eq]
          rw [decide_eq_true hak, decide_eq_true (le_trans hak hxy')]
          simp
        · show ((x :: ys).all fun w => decide (k a ≤ k w)) =
               ((x :: y :: ys).all fun w => decide (k a ≤ k w))
          rw [hallF _ _ (fun hall => hak (hall x (by simp))),
              hallF _ _ (fun hall => hak (hall x (by simp)))]

theorem all_congr' {α : Type} (p q : α → Bool) (l : List α)
    (h : ∀ a ∈ l, p a = q a) : l.all p = l.all q := by
  induction l with
  | nil => rfl
  | cons x xs ih =>
    rw [List.all_cons, List.all_cons, h x (by simp), ih (fun a ha => h a (by simp [ha]))]

theorem C2_dispatch_selects_first_min (sqrtA : ℚ → ℚ)
    (hmono : ∀ a b : ℚ, 0 ≤ a → a < b → sqrtA a < sqrtA b)
    (vs : List EmergencyVehicle) (vehicle_type : String) (dest : Point)
    (c : EmergencyVehicle)
    (hc : closest_vehicle sqrtA dest (get_available_vehicles vs (some vehicle_type) none)
            = some c) :
    c ∈ get_available_vehicles vs (some vehicle_type) none ∧
    (∀ w ∈ get_available_vehicles vs (some vehicle_type) none,
      sqrtA (d2 c.current_location dest) ≤ sqrtA (d2 w.current_location dest)) ∧
    firstMinByDistance dest (get_available_vehicles vs (some vehicle_type) none) = some c := by
  have hlt : ∀ a b : EmergencyVehicle,
      (sqrtA (d2 a.current_location dest) < sqrtA (d2 b.current_location dest)) ↔
      (d2 a.current_location dest < d2 b.current_location dest) := by
    intro a b
    constructor
    · intro h
      by_contra hnot
      push_neg at hnot
      rcases eq_or_lt_of_le hnot with he | hl
      · rw [he] at h; exact lt_irrefl _ h
      · exact absurd (hmono _ _ (d2_nonneg _ _) hl) (not_lt.mpr (le_of_lt h))
    · intro h
      exact hmono _ _ (d2_nonneg _ _) h
  have hle : ∀ a b : EmergencyVehicle,
      (sqrtA (d2 a.current_location dest) ≤ sqrtA (d2 b.current_location dest)) ↔
      (d2 a.current_location dest ≤ d2 b.current_location dest) := by
    intro a b
    rw [← not_lt, ← not_lt, not_iff_not]
    exact hlt b a
  rcases avl : get_available_vehicles vs (some vehicle_type) none with - | ⟨x, xs⟩
  · rw [avl] at hc
    exact absurd hc (by simp [closest_vehicle])
  · rw [avl] at hc
    simp only [closest_vehicle] at hc
    have h0 := foldlMin_eq_find (fun v => sqrtA (d2 v.current_location dest)) x xs
    simp only [] at h0
    have h1 : ((x :: xs).find? fun v => (x :: xs).all fun w =>
        decide (sqrtA (d2 v.current_location dest) ≤ sqrtA (d2 w.current_location dest)))
        = some c := h0.symm.trans hc
    have h2 : ((x :: xs).find? fun v => (x :: xs).all fun w =>
        decide (d2 v.current_location dest ≤ d2 w.current_location dest)) = some c := by
      rw [← h1]
      refine find_congr _ _ _ ?_
      intro a _
      exact (all_congr' _ _ _ (fun w _ => decide_eq_decide.mpr (hle a w))).symm
    have hmem : c ∈ x :: xs := List.mem_of_find?_eq_some h2
    have hminBool := List.find?_some h2
    simp only [List.all_eq_true, decide_eq_true_eq] at hminBool
    refine ⟨hmem, ?_, h2⟩
    intro w hw
    exact (hle c w).mpr (hminBool w hw)

theorem C2_dispatch_selects_first_min_witness :
    mkFireTruck "FT-2" 0 "B" (2, 0) ∈
      get_available_vehicles fleetDistances (some "fire_truck") none ∧
    idQ (d2 (mkFireTruck "FT-2" 0 "B" (2, 0)).current_location (0, 0)) ≤
      idQ (d2 (mkFireTruck "FT-1" 0 "A" (5, 0)).current_location (0, 0)) ∧
    firstMinByDistance (0, 0) (get_available_vehicles fleetDistances (some "fire_truck") none)
      = some (mkFireTruck "FT-2" 0 "B" (2, 0)) :=
  ⟨(C2_dispatch_selects_first_min idQ (fun _ _ _ h => h) fleetDistances "fire_truck" (0, 0)
      (mkFireTruck "FT-2" 0 "B" (2, 0))
      (by norm_num +decide [closest_vehicle, get_available_vehicles, fleetDistances,
            mkFireTruck, mkBase, d2, idQ])).1,
   (C2_dispatch_selects_first_min idQ (fun _ _ _ h => h) fleetDistances "fire_truck" (0, 0)
      (mkFireTruck "FT-2" 0 "B" (2, 0))
      (by norm_num +decide [closest_vehicle, get_available_vehicles, fleetDistances,
            mkFireTruck, mkBase, d2, idQ])).2.1 (mkFireTruck "FT-1" 0 "A" (5, 0))
      (by norm_num +decide [get_available_vehicles, fleetDistances, mkFireTruck, mkBase]),
   (C2_dispatch_selects_first_min idQ (fun _ _ _ h => h) fleetDistances "fire_truck" (0, 0)
      (mkFireTruck "FT-2" 0 "B" (2, 0))
      (by norm_num +decide [closest_vehicle, get_available_vehicles, fleetDistances,
            mkFireTruck, mkBase, d2, idQ])).2.2⟩

theorem nodeXY_isSome (g : RoadGraph) (n : String) (h : g.hasNode n = true) :
    (g.nodeXY? n).isSome = true := by
  unfold RoadGraph.hasNode at h
  unfold RoadGraph.nodeXY?
  rw [List.any_eq_true] at h
  obtain ⟨x, hx, he⟩ := h
  have hf : (g.nodes.find? (fun m => m.id == n)).isSome = true :=
    List.find?_isSome.mpr ⟨x, hx, he⟩
  simpa using hf

/-- A route whose nodes all exist in the graph converts to coordinates
without a `KeyError`. -/
theorem geometry_ok (g : RoadGraph) (route : List String)
    (h : ∀ n ∈ route, g.hasNode n = true) :
    (EmergencyVehicle._update_route_geometry g route).2 = false := by
  induction route with
  | nil => rfl
  | cons n ns ih =>
    unfold EmergencyVehicle._update_route_geometry
    rcases hxy : g.nodeXY? n with - | p
    · exact absurd (nodeXY_isSome g n (h n (by simp))) (by simp [hxy])
    · exact ih (fun m hm => h m (by simp [hm]))

theorem start_response_no_error (g : RoadGraph) (dest : Point) (route : List String)
    (v : EmergencyVehicle) (h : ∀ n ∈ route, g.hasNode n = true) :
    (EmergencyVehicle.start_response g dest route v).2 = none := by
  simp only [EmergencyVehicle.start_response, geometry_ok g route h]
  rfl

theorem find_replaceFirst (vs : List EmergencyVehicle) (vid : String)
    (v v' : EmergencyVehicle) (hfind : get_vehicle_by_id vs vid = some v)
    (hid : (v'.vehicle_id == vid) = true) :
    get_vehicle_by_id (replaceFirstById vs vid v') vid = some v' := by
  induction vs with
  | nil => simp [get_vehicle_by_id] at hfind
  | cons x xs ih =>
    unfold get_vehicle_by_id at hfind ⊢
    unfold replaceFirstById
    rcases hx : (x.vehicle_id == vid) with - | -
    · rw [if_neg (by simp [hx])]
      rw [find_cons_neg (fun m => m.vehicle_id == vid) x
            (replaceFirstById xs vid v') hx]
      rw [find_cons_neg (fun m => m.vehicle_id == vid) x xs hx] at hfind
      exact ih hfind
    · rw [if_pos (by simp [hx])]
      exact find_cons_pos (fun m => m.vehicle_id == vid) v' xs hid

/-- C4: a vehicle in status "responding" or "handling" cannot be
redispatched — the controller fails with `VehicleUnavailableError` and
leaves the whole fleet (and history) unchanged; for an existing vehicle in
any other status, dispatch over a route of known graph nodes succeeds,
transitions the vehicle to "responding" and logs the snapshot. -/
theorem C4_dispatch_availability (g : RoadGraph) (vs : List EmergencyVehicle)
    (history : List HistEntry) (ts vid : String) (dest : Point)
    (route : List String) (v : EmergencyVehicle)
    (hfind : get_vehicle_by_id vs vid = some v) :
    ((v.status = "responding" ∨ v.status = "handling") →
      ctrl_dispatch g vs history ts vid dest route =
        ((vs, history), some .vehicleUnavailable)) ∧
    (¬(v.status = "responding" ∨ v.status = "handling") →
     (∀ n ∈ route, g.hasNode n = true) →
      ctrl_dispatch g vs history ts vid dest route =
        ((replaceFirstById vs vid (EmergencyVehicle.start_response g dest route v).1,
          _capture_status history ts
            (replaceFirstById vs vid (EmergencyVehicle.start_response g dest route v).1)),
         none) ∧
      (EmergencyVehicle.start_response g dest route v).1.status = "responding" ∧
      get_vehicle_by_id
        (replaceFirstById vs vid (EmergencyVehicle.start_response g dest route v).1) vid =
        some (EmergencyVehicle.start_response g dest route v).1) := by
  constructor
  · intro hbusy
    unfold ctrl_dispatch
    rw [hfind]
    simp only [if_pos hbusy]
  · intro hfree hroute
    refine ⟨?_, rfl, ?_⟩
    · unfold ctrl_dispatch
      rw [hfind]
      simp only [if_neg hfree]
      rw [show (EmergencyVehicle.start_response g dest route v).2 = none from
            start_response_no_error g dest route v hroute]
    · refine find_replaceFirst vs vid v _ hfind ?_
      have : (EmergencyVehicle.start_response g dest route v).1.vehicle_id =
          v.vehicle_id := rfl
      rw [this]
      have hvv := List.find?_some hfind
      simpa using hvv

theorem C4_dispatch_availability_witness :
    (ctrl_dispatch gFire busyFleet [] "t0" "FT-1" (0, 0) ["n0"] =
      ((busyFleet, []), some .vehicleUnavailable)) ∧
    ((ctrl_dispatch gFire idleFleet [] "t0" "FT-1" (0, 0) ["n0"] =
        ((replaceFirstById idleFleet "FT-1"
            (EmergencyVehicle.start_response gFire (0, 0) ["n0"] truckInit).1,
          _capture_status [] "t0"
            (replaceFirstById idleFleet "FT-1"
              (EmergencyVehicle.start_response gFire (0, 0) ["n0"] truckInit).1)),
         none)) ∧
      (EmergencyVehicle.start_response gFire (0, 0) ["n0"] truckInit).1.status =
        "responding" ∧
      get_vehicle_by_id
        (replaceFirstById idleFleet "FT-1"
          (EmergencyVehicle.start_response gFire (0, 0) ["n0"] truckInit).1) "FT-1" =
        some (EmergencyVehicle.start_response gFire (0, 0) ["n0"] truckInit).1) :=
  ⟨(C4_dispatch_availability gFire busyFleet [] "t0" "FT-1" (0, 0) ["n0"] busyTruck
      (by norm_num +decide [get_vehicle_by_id, busyFleet, busyTruck, mkFireTruck, mkBase])).1
      (Or.inl rfl),
   (C4_dispatch_availability gFire idleFleet [] "t0" "FT-1" (0, 0) ["n0"] truckInit
      (by norm_num +decide [get_vehicle_by_id, idleFleet, truckInit, mkFireTruck, mkBase])).2
      (by norm_num +decide [truckInit, mkFireTruck, mkBase])
      (by norm_num +decide [RoadGraph.hasNode, gFire])⟩

/-- C5: a dispatch request whose requested type has every vehicle in
"responding" or "handling" (an empty available set) fails with
`NoAvailableVehicleError`, leaving the whole simulator state — every
vehicle's status, location, route and speed — and the history unchanged. -/
theorem C5_dispatch_busy_fleet (sqrtA : ℚ → ℚ)
    (sp : RoadGraph → String → String → Option (List String))
    (toProj : Point → Point) (s : SimState) (history : List HistEntry)
    (ts vehicle_type : String) (dest : Point) (hvt : vehicle_type ≠ "")
    (hbusy : ∀ v ∈ s.vehicles, v.vehicle_type = vehicle_type →
      (v.status = "responding" ∨ v.status = "handling")) :
    api_dispatch sqrtA sp toProj s history ts vehicle_type dest =
      ((s, history), some .noAvailableVehicle) := by
  have havail : get_available_vehicles s.vehicles (some vehicle_type) none = [] := by
    unfold get_available_vehicles
    simp only [if_pos hvt]
    rw [List.filter_eq_nil_iff]
    intro v hv
    rw [List.mem_filter] at hv
    have htype : v.vehicle_type = vehicle_type := by simpa using hv.2
    rcases hbusy v hv.1 htype with hst | hst <;> simp [hst]
  unfold api_dispatch
  rw [havail]
  simp only [closest_vehicle]

theorem C5_dispatch_busy_fleet_witness :
    api_dispatch idQ spEq id stateBusy [] "t0" "fire_truck" (0, 0) =
      ((stateBusy, []), some .noAvailableVehicle) :=
  C5_dispatch_busy_fleet idQ spEq id stateBusy [] "t0" "fire_truck" (0, 0)
    (by decide)
    (by norm_num +decide [stateBusy, busyFleet, busyTruck, mkFireTruck, mkBase])

/-- C8, counterexample: building with a road whose geometry has a single
coordinate point reports no error at all — the result is `.ok` (no
`DataError` is surfaced anywhere), the degenerate road contributing no nodes
and no edges. -/
theorem C8_counterexample :
    create_road_network_graph idQ [roadC8] junsC8 =
      .ok ⟨[⟨"J_X", 0, 0, "junction"⟩], []⟩ ∧
    roadC8.coords.length < 2 := by
  constructor
  · norm_num +decide [create_road_network_graph, buildInit, addJunctionNode, processRoad,
      roadC8, junsC8, RoadGraph.empty, round2, roundHalfEven, dictInsert, RoadGraph.add_node]
  · decide

/-- C8, amended: a road with fewer than 2 coordinate points is skipped
silently — it contributes no nodes and no edges (the build result is
identical to the build without it), no error is reported for it, and the
build completes for all remaining roads. -/
theorem C8_degenerate_skipped (sqrtA : ℚ → ℚ) (junctions : List Junction)
    (pre post : List Road) (bad : Road) (hbad : bad.coords.length < 2) :
    create_road_network_graph sqrtA (pre ++ bad :: post) junctions =
      create_road_network_graph sqrtA (pre ++ post) junctions ∧
    (junctions ≠ [] →
      ∃ g, create_road_network_graph sqrtA (pre ++ bad :: post) junctions = .ok g) := by
  have hskip : ∀ st, processRoad sqrtA junctions st bad = st := by
    intro st
    unfold processRoad
    rw [if_pos hbad]
  have hfold : ∀ st0 : BuildState,
      (pre ++ bad :: post).foldl (processRoad sqrtA junctions) st0 =
      (pre ++ post).foldl (processRoad sqrtA junctions) st0 := by
    intro st0
    rw [List.foldl_append, List.foldl_append, List.foldl_cons, hskip]
  constructor
  · unfold create_road_network_graph
    split_ifs with h
    · rfl
    · rw [hfold]
  · intro hne
    unfold create_road_network_graph
    rw [if_neg (by simpa using hne)]
    exact ⟨_, rfl⟩

theorem C8_degenerate_skipped_witness :
    create_road_network_graph idQ ([] ++ roadC8 :: []) junsC8 =
      create_road_network_graph idQ ([] ++ []) junsC8 ∧
    ∃ g, create_road_network_graph idQ ([] ++ roadC8 :: []) junsC8 = .ok g :=
  ⟨(C8_degenerate_skipped idQ junsC8 [] [] roadC8 (by decide)).1,
   (C8_degenerate_skipped idQ junsC8 [] [] roadC8 (by decide)).2 (by decide)⟩

/-- C7, counterexample: in the built graph of the two-road scenario, the
forward edge `(J_J1, J_J2)` created by bidirectional road 0 has speed 50,
but its mirror edge `(J_J2, J_J1)` has speed 30 — road 1, processed later,
overwrote the mirror's attributes — so the mirror does not carry identical
attributes in the built graph. -/
theorem C7_counterexample :
    (roadsC7.get? 0).map Road.traffic_direction = some "Both directions" ∧
    create_road_network_graph idQ roadsC7 junsC7 = .ok gC7 ∧
    (gC7.getEdge? "J_J1" "J_J2").map EdgeAttrs.road_id = some 0 ∧
    (gC7.getEdge? "J_J1" "J_J2").map EdgeAttrs.speed = some 50 ∧
    (gC7.getEdge? "J_J2" "J_J1").map EdgeAttrs.speed = some 30 := by
  refine ⟨by norm_num +decide [roadsC7], ?_, ?_, ?_, ?_⟩
  · norm_num +decide [create_road_network_graph, buildInit, addJunctionNode, processRoad,
      collectRoadNodes, resolveNode, addSegments, addSegment, kdQuery, effectiveSpeed, dictGet,
      dictInsert, RoadGraph.add_node, RoadGraph.add_edge, RoadGraph.getEdge?, round2,
      roundHalfEven, d2, idQ, roadsC7, junsC7, RoadGraph.empty, gC7, List.enum,
      List.enumFrom]
  all_goals
    norm_num +decide [RoadGraph.getEdge?, gC7]

/-! Step-by-step evaluations of the concrete scenarios (helper lemmas for
the reachability claims). -/

theorem stateFire0_eq : stateFire0 = ⟨gFire, [truckInit], 0, 1, 100⟩ := by
  norm_num +decide [stateFire0, initState, initialize_vehicles, initialize_vehicles.go,
    facFire, strIn, hasSubSeq, truckInit, mkFireTruck, mkBase]

theorem stateFireA_eq : stateFireA = ⟨gFire, [vFireA], 0, 1, 100⟩ := by
  rw [stateFireA, stateFire0_eq]
  norm_num +decide [api_dispatch, get_available_vehicles, closest_vehicle,
    RoadGraph.find_nearest_node, spEq, ctrl_dispatch, get_vehicle_by_id, replaceFirstById,
    EmergencyVehicle.start_response, EmergencyVehicle._update_route_geometry,
    RoadGraph.nodeXY?, RoadGraph.getEdge?, _capture_status, d2, idQ, gFire, truckInit,
    mkFireTruck, mkBase, vFireA, EmergencyVehicle.get_state]

theorem stateFireB_eq : stateFireB = ⟨gFire, [vFireB], 100, 1, 100⟩ := by
  rw [stateFireB, stateFireA_eq]
  norm_num +decide [tick, tickLoop, tickVehicle, EmergencyVehicle.update_movement,
    EmergencyVehicle.arrive_at_destination, List.getD, d2, idQ, gFire, truckInit,
    mkFireTruck, mkBase, vFireA, vFireB]

theorem statePol_eq : statePol =
    ⟨gPol, [polCar "POL-1", polCar "POL-2", polCar "POL-3", polCar "POL-4", polCar "POL-5"],
     0, 1, 100⟩ := by
  norm_num +decide [statePol, initState, initialize_vehicles, initialize_vehicles.go, facPol,
    strIn, hasSubSeq, mkPoliceCar, mkBase, generate_patrol_route, generate_patrol_route.walk,
    RoadGraph.neighbors, RoadGraph.find_nearest_node, pickHead, PoliceCar.start_patrol,
    PoliceCar._update_patrol_geometry, EmergencyVehicle._update_route_geometry,
    RoadGraph.nodeXY?, d2, idQ, gPol, polCar, polNodes, polGeo]

theorem notClaimA : ¬ locationStatusClaim ⟨gFire, [vFireA], 0, 1, 100⟩ := by
  intro h
  have h1 := (h vFireA (by simp)).1 (Or.inl rfl)
  norm_num +decide [onPolyline, onSeg, vFireA, truckInit, mkFireTruck, mkBase] at h1

theorem notClaimB : ¬ locationStatusClaim ⟨gFire, [vFireB], 100, 1, 100⟩ := by
  intro h
  have h1 := (h vFireB (by simp)).2.2 (Or.inr rfl)
  norm_num +decide [vFireB, truckInit, mkFireTruck, mkBase] at h1

theorem notClaimP : ¬ locationStatusClaim
    ⟨gPol, [polCar "POL-1", polCar "POL-2", polCar "POL-3", polCar "POL-4", polCar "POL-5"],
     0, 1, 100⟩ := by
  intro h
  have h1 := (h (polCar "POL-1") (by simp)).2.1 rfl
  norm_num +decide [onPolyline, onSeg, polCar, polGeo, mkPoliceCar, mkBase] at h1

/-- C9, counterexample: three reachable states violating the claimed
location invariant.  `stateFireA` (after a dispatch): a responding vehicle
standing at its facility, which is not on its route polyline.  `stateFireB`
(after the next tick): a handling vehicle standing at its arrival point
`(0,0)`, not at its home facility `(1,1)`.  `statePol` (fleet
initialization of a police station): patrolling cars standing at the
facility `(1,1)`, off their patrol polyline. -/
theorem C9_counterexample :
    Reachable idQ spEq id stateFireA ∧ ¬ locationStatusClaim stateFireA ∧
    Reachable idQ spEq id stateFireB ∧ ¬ locationStatusClaim stateFireB ∧
    Reachable idQ spEq id statePol ∧ ¬ locationStatusClaim statePol := by
  refine ⟨Reachable.dispatch [] "t0" "fire_truck" (0, 0)
            (Reachable.init pickHead gFire [facFire]),
          stateFireA_eq ▸ notClaimA,
          Reachable.tick pickHead (Reachable.dispatch [] "t0" "fire_truck" (0, 0)
            (Reachable.init pickHead gFire [facFire])),
          stateFireB_eq ▸ notClaimB,
          Reachable.init pickHead gPol [facPol],
          statePol_eq ▸ notClaimP⟩

/-! Graph-operation lemmas for the builder proofs. -/

theorem hasNode_iff (g : RoadGraph) (i : String) :
    g.hasNode i = true ↔ ∃ n ∈ g.nodes, n.id = i := by
  simp [RoadGraph.hasNode]

theorem exists_addNodeList_self (i : String) (x y : ℚ) (kind : String)
    (l : List GNode) : ∃ n ∈ RoadGraph.addNodeList i x y kind l, n.id = i := by
  induction l with
  | nil => exact ⟨⟨i, x, y, kind⟩, by simp [RoadGraph.addNodeList]⟩
  | cons m ms ih =>
    unfold RoadGraph.addNodeList
    rcases hm : (m.id == i) with - | -
    · rw [if_neg (by simp [hm])]
      obtain ⟨n, hn, hni⟩ := ih
      exact ⟨n, by simp [hn], hni⟩
    · rw [if_pos rfl]
      exact ⟨⟨i, x, y, kind⟩, by simp⟩

theorem exists_addNodeList_mono (i : String) (x y : ℚ) (kind j : String)
    (l : List GNode) (h : ∃ n ∈ l, n.id = j) :
    ∃ n ∈ RoadGraph.addNodeList i x y kind l, n.id = j := by
  induction l with
  | nil => simp at h
  | cons m ms ih =>
    unfold RoadGraph.addNodeList
    obtain ⟨n, hn, hnj⟩ := h
    rcases hm : (m.id == i) with - | -
    · rw [if_neg (by simp [hm])]
      rcases List.mem_cons.mp hn with rfl | hn'
      · exact ⟨n, by simp, hnj⟩
      · obtain ⟨n', hn', hnj'⟩ := ih ⟨n, hn', hnj⟩
        exact ⟨n', by simp [hn'], hnj'⟩
    · rw [if_pos rfl]
      simp only [beq_iff_eq] at hm
      rcases List.mem_cons.mp hn with rfl | hn'
      · exact ⟨⟨i, x, y, kind⟩, by simp, by rw [← hnj, hm]⟩
      · exact ⟨n, by simp [hn'], hnj⟩

theorem hasNode_add_node_self (g : RoadGraph) (i : String) (x y : ℚ)
    (kind : String) : (g.add_node i x y kind).hasNode i = true :=
  (hasNode_iff _ _).mpr (exists_addNodeList_self i x y kind g.nodes)

theorem hasNode_add_node_mono (g : RoadGraph) (i : String) (x y : ℚ)
    (kind j : String) (h : g.hasNode j = true) :
    (g.add_node i x y kind).hasNode j = true :=
  (hasNode_iff _ _).mpr (exists_addNodeList_mono i x y kind j g.nodes
    ((hasNode_iff _ _).mp h))

theorem add_node_edges (g : RoadGraph) (i : String) (x y : ℚ) (kind : String) :
    (g.add_node i x y kind).edges = g.edges := rfl

theorem add_edge_nodes (g : RoadGraph) (u v : String) (a : EdgeAttrs) :
    (g.add_edge u v a).nodes = g.nodes := rfl

theorem add_edge_hasNode (g : RoadGraph) (u v : String) (a : EdgeAttrs)
    (j : String) : (g.add_edge u v a).hasNode j = g.hasNode j := rfl

theorem mem_addEdgeList (u v : String) (a : EdgeAttrs) (l : List GEdge)
    (e : GEdge) (he : e ∈ RoadGraph.addEdgeList u v a l) : e = ⟨u, v, a⟩ ∨ e ∈ l := by
  induction l with
  | nil => simpa [RoadGraph.addEdgeList] using he
  | cons x xs ih =>
    unfold RoadGraph.addEdgeList at he
    rcases hx : (x.src == u && x.tgt == v) with - | -
    · rw [if_neg (by simp [hx])] at he
      rcases List.mem_cons.mp he with rfl | he'
      · exact Or.inr (by simp)
      · rcases ih he' with h | h
        · exact Or.inl h
        · exact Or.inr (by simp [h])
    · rw [if_pos hx] at he
      rcases List.mem_cons.mp he with rfl | he'
      · exact Or.inl rfl
      · exact Or.inr (by simp [he'])

theorem mem_add_edge (g : RoadGraph) (u v : String) (a : EdgeAttrs)
    (e : GEdge) (he : e ∈ (g.add_edge u v a).edges) :
    e = ⟨u, v, a⟩ ∨ e ∈ g.edges :=
  mem_addEdgeList u v a g.edges e he

theorem find_addEdgeList_self (u v : String) (a : EdgeAttrs) (l : List GEdge) :
    (RoadGraph.addEdgeList u v a l).find? (fun e => e.src == u && e.tgt == v) =
      some ⟨u, v, a⟩ := by
  induction l with
  | nil => simp [RoadGraph.addEdgeList, List.find?]
  | cons x xs ih =>
    unfold RoadGraph.addEdgeList
    rcases hx : (x.src == u && x.tgt == v) with - | -
    · rw [if_neg (by simp [hx])]
      rw [find_cons_neg (fun e => e.src == u && e.tgt == v) x (RoadGraph.addEdgeList u v a xs) hx]
      exact ih
    · rw [if_pos rfl]
      exact find_cons_pos (fun e => e.src == u && e.tgt == v) ⟨u, v, a⟩ xs (by simp)

theorem getEdge?_add_edge_self (g : RoadGraph) (u v : String) (a : EdgeAttrs) :
    (g.add_edge u v a).getEdge? u v = some a := by
  unfold RoadGraph.getEdge? RoadGraph.add_edge
  dsimp only
  rw [find_addEdgeList_self]
  rfl

theorem find_addEdgeList_other (u v : String) (a : EdgeAttrs) (l : List GEdge)
    (u' v' : String) (h : ¬(u = u' ∧ v = v')) :
    (RoadGraph.addEdgeList u v a l).find? (fun e => e.src == u' && e.tgt == v') =
      l.find? (fun e => e.src == u' && e.tgt == v') := by
  have hnew : ((⟨u, v, a⟩ : GEdge).src == u' && (⟨u, v, a⟩ : GEdge).tgt == v') = false := by
    rcases hb : ((⟨u, v, a⟩ : GEdge).src == u' && (⟨u, v, a⟩ : GEdge).tgt == v') with - | -
    · rfl
    · simp only [Bool.and_eq_true, beq_iff_eq] at hb
      exact absurd hb h
  induction l with
  | nil =>
    simp only [RoadGraph.addEdgeList]
    rw [find_cons_neg (fun e => e.src == u' && e.tgt == v') (⟨u, v, a⟩ : GEdge) [] hnew]
  | cons x xs ih =>
    unfold RoadGraph.addEdgeList
    rcases hx : (x.src == u && x.tgt == v) with - | -
    · rw [if_neg (by simp [hx])]
      rcases hx' : (x.src == u' && x.tgt == v') with - | -
      · rw [find_cons_neg (fun e => e.src == u' && e.tgt == v') x
              (RoadGraph.addEdgeList u v a xs) hx',
            find_cons_neg (fun e => e.src == u' && e.tgt == v') x xs hx']
        exact ih
      · rw [find_cons_pos (fun e => e.src == u' && e.tgt == v') x
              (RoadGraph.addEdgeList u v a xs) hx',
            find_cons_pos (fun e => e.src == u' && e.tgt == v') x xs hx']
    · rw [if_pos rfl]
      simp only [Bool.and_eq_true, beq_iff_eq] at hx
      have hxf : (x.src == u' && x.tgt == v') = false := by
        rcases hb : (x.src == u' && x.tgt == v') with - | -
        · rfl
        · simp only [Bool.and_eq_true, beq_iff_eq] at hb
          exact absurd ⟨hx.1 ▸ hb.1, hx.2 ▸ hb.2⟩ h
      rw [find_cons_neg (fun e => e.src == u' && e.tgt == v') (⟨u, v, a⟩ : GEdge) xs hnew,
          find_cons_neg (fun e => e.src == u' && e.tgt == v') x xs hxf]

theorem getEdge?_add_edge_other (g : RoadGraph) (u v : String) (a : EdgeAttrs)
    (u' v' : String) (h : ¬(u = u' ∧ v = v')) :
    (g.add_edge u v a).getEdge? u' v' = g.getEdge? u' v' := by
  unfold RoadGraph.getEdge? RoadGraph.add_edge
  dsimp only
  rw [find_addEdgeList_other u v a g.edges u' v' h]

theorem getEdge?_add_edge_isSome (g : RoadGraph) (u v : String) (a : EdgeAttrs)
    (u' v' : String) (h : (g.getEdge? u' v').isSome = true) :
    ((g.add_edge u v a).getEdge? u' v').isSome = true := by
  by_cases hk : u = u' ∧ v = v'
  · rw [hk.1, hk.2] at *
    rw [getEdge?_add_edge_self]
    rfl
  · rw [getEdge?_add_edge_other g u v a u' v' hk]
    exact h

theorem getEdge?_add_node (g : RoadGraph) (i : String) (x y : ℚ) (kind : String)
    (u v : String) : (g.add_node i x y kind).getEdge? u v = g.getEdge? u v := rfl

/-! Builder invariant lemmas. -/

theorem dictGet_mem (d : List (Point × String)) (k : Point) (nid : String)
    (h : dictGet d k = some nid) : ∃ kv ∈ d, kv.2 = nid := by
  unfold dictGet at h
  rw [Option.map_eq_some'] at h
  obtain ⟨kv, hkv, hsnd⟩ := h
  exact ⟨kv, List.mem_of_find?_eq_some hkv, hsnd⟩

theorem mem_dictInsert (k : Point) (v : String) (d : List (Point × String))
    (kv : Point × String) (h : kv ∈ dictInsert k v d) : kv = (k, v) ∨ kv ∈ d := by
  induction d with
  | nil => simpa [dictInsert] using h
  | cons e es ih =>
    unfold dictInsert at h
    split_ifs at h with he
    · rcases List.mem_cons.mp h with rfl | h'
      · exact Or.inl rfl
      · exact Or.inr (by simp [h'])
    · rcases List.mem_cons.mp h with rfl | h'
      · exact Or.inr (by simp)
      · rcases ih h' with h'' | h''
        · exact Or.inl h''
        · exact Or.inr (by simp [h''])

theorem GoodEdge_mono (roads : List Road) (g g' : RoadGraph) (e : GEdge)
    (h : GoodEdge roads g e)
    (hmono : ∀ i, g.hasNode i = true → g'.hasNode i = true) :
    GoodEdge roads g' e :=
  ⟨h.1, h.2.1, hmono _ h.2.2.1, hmono _ h.2.2.2⟩

theorem effectiveSpeed_pos (r : Road) : 0 < effectiveSpeed r := by
  unfold effectiveSpeed
  rcases r.speed_limit with - | s
  · norm_num
  · dsimp only
    split_ifs with h
    · exact h
    · norm_num

theorem kdQuery_mem (sqrtA : ℚ → ℚ) (junctions : List Junction) (p : Point)
    (jid : String) (d : ℚ) (h : kdQuery sqrtA junctions p = some (jid, d)) :
    ∃ j ∈ junctions, j.node_id = jid := by
  unfold kdQuery at h
  have aux : ∀ (l : List Junction) (acc : Option (String × ℚ)),
      (∀ x ∈ l, x ∈ junctions) →
      (∀ jid' d', acc = some (jid', d') → ∃ j ∈ junctions, j.node_id = jid') →
      ∀ jid' d',
        (l.foldl (fun best j =>
          let dist := sqrtA (d2 p (j.x, j.y))
          match best with
          | none => some (j.node_id, dist)
          | some (bi, bd) => if dist < bd then some (j.node_id, dist) else some (bi, bd))
          acc) = some (jid', d') →
        ∃ j ∈ junctions, j.node_id = jid' := by
    intro l
    induction l with
    | nil =>
      intro acc _ hacc jid' d' hres
      exact hacc jid' d' hres
    | cons j js ih =>
      intro acc hsub hacc jid' d' hres
      rw [List.foldl_cons] at hres
      refine ih _ (fun x hx => hsub x (by simp [hx])) ?_ jid' d' hres
      intro jid'' d'' hstep
      rcases acc with - | ⟨bi, bd⟩
      · simp only at hstep
        exact ⟨j, hsub j (by simp), by injection hstep with h1; injection h1⟩
      · simp only at hstep
        split_ifs at hstep
        · exact ⟨j, hsub j (by simp), by injection hstep with h1; injection h1⟩
        · exact hacc jid'' d'' (by rw [hstep])
  exact aux junctions none (fun x hx => hx) (by intro _ _ h'; cases h') jid d h

theorem resolveNode_spec (sqrtA : ℚ → ℚ) (junctions : List Junction)
    (st : BuildState) (xy : Point) (ie sh : Bool)
    (h2 : ∀ kv ∈ st.junction_points, st.graph.hasNode kv.2 = true)
    (h3 : ∀ j ∈ junctions, st.graph.hasNode ("J_" ++ j.node_id) = true) :
    (resolveNode sqrtA junctions st xy ie sh).1.graph.edges = st.graph.edges ∧
    (∀ i, st.graph.hasNode i = true →
      (resolveNode sqrtA junctions st xy ie sh).1.graph.hasNode i = true) ∧
    (∀ kv ∈ (resolveNode sqrtA junctions st xy ie sh).1.junction_points,
      (resolveNode sqrtA junctions st xy ie sh).1.graph.hasNode kv.2 = true) ∧
    (∀ j ∈ junctions,
      (resolveNode sqrtA junctions st xy ie sh).1.graph.hasNode ("J_" ++ j.node_id) = true) ∧
    (∀ nid, (resolveNode sqrtA junctions st xy ie sh).2 = some nid →
      (resolveNode sqrtA junctions st xy ie sh).1.graph.hasNode nid = true) := by
  have hfreshSpec :
      ∀ (fr : BuildState × Option String),
        fr = (if ie || sh then
          ({ graph := st.graph.add_node ("R_" ++ toString st.node_counter) xy.1 xy.2
               "road_vertex"
             junction_points := dictInsert (round2 xy.1, round2 xy.2)
               ("R_" ++ toString st.node_counter) st.junction_points
             node_counter := st.node_counter + 1 }, some ("R_" ++ toString st.node_counter))
          else (st, none)) →
        fr.1.graph.edges = st.graph.edges ∧
        (∀ i, st.graph.hasNode i = true → fr.1.graph.hasNode i = true) ∧
        (∀ kv ∈ fr.1.junction_points, fr.1.graph.hasNode kv.2 = true) ∧
        (∀ j ∈ junctions, fr.1.graph.hasNode ("J_" ++ j.node_id) = true) ∧
        (∀ nid, fr.2 = some nid → fr.1.graph.hasNode nid = true) := by
    intro fr hfr
    split_ifs at hfr with hcond
    · subst hfr
      refine ⟨add_node_edges _ _ _ _ _, fun i h => hasNode_add_node_mono _ _ _ _ _ _ h,
        ?_, fun j hj => hasNode_add_node_mono _ _ _ _ _ _ (h3 j hj), ?_⟩
      · intro kv hkv
        rcases mem_dictInsert _ _ _ kv hkv with rfl | hkv'
        · exact hasNode_add_node_self _ _ _ _ _
        · exact hasNode_add_node_mono _ _ _ _ _ _ (h2 kv hkv')
      · intro nid hnid
        injection hnid with hnid
        rw [← hnid]
        exact hasNode_add_node_self _ _ _ _ _
    · subst hfr
      exact ⟨rfl, fun i h => h, h2, h3, by intro _ h'; cases h'⟩
  rcases hdg : dictGet st.junction_points (round2 xy.1, round2 xy.2) with - | nid0
  case some =>
    have hr : resolveNode sqrtA junctions st xy ie sh = (st, some nid0) := by
      simp only [resolveNode]
      rw [hdg]
    rw [hr]
    refine ⟨rfl, fun i h => h, h2, h3, ?_⟩
    intro nid hnid
    injection hnid with hnid
    obtain ⟨kv, hkv, hsnd⟩ := dictGet_mem _ _ _ hdg
    rw [← hnid, ← hsnd]
    exact h2 kv hkv
  case none =>
    rcases hkq : kdQuery sqrtA junctions xy with - | q
    · have hr : resolveNode sqrtA junctions st xy ie sh =
          (if ie || sh then
            ({ graph := st.graph.add_node ("R_" ++ toString st.node_counter) xy.1 xy.2
                 "road_vertex"
               junction_points := dictInsert (round2 xy.1, round2 xy.2)
                 ("R_" ++ toString st.node_counter) st.junction_points
               node_counter := st.node_counter + 1 },
             some ("R_" ++ toString st.node_counter))
          else (st, none)) := by
        simp only [resolveNode]
        rw [hdg, hkq]
      rw [hr]
      exact hfreshSpec _ rfl
    · rcases q with ⟨jid, dist⟩
      by_cases htol : dist ≤ 1
      · have hr : resolveNode sqrtA junctions st xy ie sh = (st, some ("J_" ++ jid)) := by
          simp only [resolveNode]
          rw [hdg, hkq]
          simp only [if_pos htol]
        rw [hr]
        refine ⟨rfl, fun i h => h, h2, h3, ?_⟩
        intro nid hnid
        injection hnid with hnid
        obtain ⟨j, hj, hjid⟩ := kdQuery_mem sqrtA junctions xy jid dist hkq
        rw [← hnid, ← hjid]
        exact h3 j hj
      · have hr : resolveNode sqrtA junctions st xy ie sh =
            (if ie || sh then
              ({ graph := st.graph.add_node ("R_" ++ toString st.node_counter) xy.1 xy.2
                   "road_vertex"
                 junction_points := dictInsert (round2 xy.1, round2 xy.2)
                   ("R_" ++ toString st.node_counter) st.junction_points
                 node_counter := st.node_counter + 1 },
               some ("R_" ++ toString st.node_counter))
            else (st, none)) := by
          simp only [resolveNode]
          rw [hdg, hkq]
          simp only [if_neg htol]
        rw [hr]
        exact hfreshSpec _ rfl

theorem collectFold_spec (sqrtA : ℚ → ℚ) (junctions : List Junction) (n m : ℕ)
    (L : List (ℕ × Point)) :
    ∀ (acc : BuildState × List (String × Point)),
      (∀ kv ∈ acc.1.junction_points, acc.1.graph.hasNode kv.2 = true) →
      (∀ j ∈ junctions, acc.1.graph.hasNode ("J_" ++ j.node_id) = true) →
      (∀ q ∈ acc.2, acc.1.graph.hasNode q.1 = true) →
      ∀ r, r = L.foldl (fun acc ix =>
          let i := ix.1
          let isEnd := i == 0 || i == n - 1
          let hit := i % m == 0
          let r := resolveNode sqrtA junctions acc.1 ix.2 isEnd hit
          match r.2 with
          | some nid => (r.1, acc.2 ++ [(nid, ix.2)])
          | none => (r.1, acc.2)) acc →
        r.1.graph.edges = acc.1.graph.edges ∧
        (∀ i, acc.1.graph.hasNode i = true → r.1.graph.hasNode i = true) ∧
        (∀ kv ∈ r.1.junction_points, r.1.graph.hasNode kv.2 = true) ∧
        (∀ j ∈ junctions, r.1.graph.hasNode ("J_" ++ j.node_id) = true) ∧
        (∀ q ∈ r.2, r.1.graph.hasNode q.1 = true) := by
  induction L with
  | nil =>
    intro acc h2 h3 hrn r hr
    rw [List.foldl_nil] at hr
    subst hr
    exact ⟨rfl, fun i h => h, h2, h3, hrn⟩
  | cons e L' ih =>
    intro acc h2 h3 hrn r hr
    rw [List.foldl_cons] at hr
    have spec := resolveNode_spec sqrtA junctions acc.1 e.2
      (e.1 == 0 || e.1 == n - 1) (e.1 % m == 0) h2 h3
    rcases hr2 : (resolveNode sqrtA junctions acc.1 e.2
        (e.1 == 0 || e.1 == n - 1) (e.1 % m == 0)).2 with - | nid
    · simp only [hr2] at hr
      have hres := ih ((resolveNode sqrtA junctions acc.1 e.2
          (e.1 == 0 || e.1 == n - 1) (e.1 % m == 0)).1, acc.2)
        spec.2.2.1 spec.2.2.2.1 (fun q hq => spec.2.1 _ (hrn q hq)) r hr
      exact ⟨hres.1.trans spec.1, fun i h => hres.2.1 _ (spec.2.1 _ h),
        hres.2.2.1, hres.2.2.2.1, hres.2.2.2.2⟩
    · simp only [hr2] at hr
      have hres := ih ((resolveNode sqrtA junctions acc.1 e.2
          (e.1 == 0 || e.1 == n - 1) (e.1 % m == 0)).1, acc.2 ++ [(nid, e.2)])
        spec.2.2.1 spec.2.2.2.1
        (by
          intro q hq
          rcases List.mem_append.mp hq with hq' | hq'
          · exact spec.2.1 _ (hrn q hq')
          · have : q = (nid, e.2) := by simpa using hq'
            rw [this]
            exact spec.2.2.2.2 nid hr2) r hr
      exact ⟨hres.1.trans spec.1, fun i h => hres.2.1 _ (spec.2.1 _ h),
        hres.2.2.1, hres.2.2.2.1, hres.2.2.2.2⟩

theorem collectRoadNodes_spec (sqrtA : ℚ → ℚ) (junctions : List Junction)
    (st : BuildState) (coords : List Point)
    (h2 : ∀ kv ∈ st.junction_points, st.graph.hasNode kv.2 = true)
    (h3 : ∀ j ∈ junctions, st.graph.hasNode ("J_" ++ j.node_id) = true) :
    (collectRoadNodes sqrtA junctions st coords).1.graph.edges = st.graph.edges ∧
    (∀ i, st.graph.hasNode i = true →
      (collectRoadNodes sqrtA junctions st coords).1.graph.hasNode i = true) ∧
    (∀ kv ∈ (collectRoadNodes sqrtA junctions st coords).1.junction_points,
      (collectRoadNodes sqrtA junctions st coords).1.graph.hasNode kv.2 = true) ∧
    (∀ j ∈ junctions,
      (collectRoadNodes sqrtA junctions st coords).1.graph.hasNode
        ("J_" ++ j.node_id) = true) ∧
    (∀ q ∈ (collectRoadNodes sqrtA junctions st coords).2,
      (collectRoadNodes sqrtA junctions st coords).1.graph.hasNode q.1 = true) := by
  exact collectFold_spec sqrtA junctions coords.length (max 1 (coords.length / 10))
    coords.enum (st, []) h2 h3 (by intro q hq; cases hq) _ rfl

theorem addSegment_nodes (sqrtA : ℚ → ℚ) (road : Road) (rnLen : ℕ)
    (g : RoadGraph) (q : ℕ × ((String × Point) × (String × Point))) :
    (addSegment sqrtA road rnLen g q).nodes = g.nodes := by
  simp only [addSegment]
  by_cases hse : q.2.1.1 = q.2.2.1
  · rw [if_pos hse]
  · rw [if_neg hse]
    by_cases hb : road.traffic_direction = "Both directions"
    · rw [if_pos hb, getEdge?_add_edge_self]
      rfl
    · rw [if_neg hb]
      rfl

theorem addSegment_hasNode (sqrtA : ℚ → ℚ) (road : Road) (rnLen : ℕ)
    (g : RoadGraph) (q : ℕ × ((String × Point) × (String × Point))) (i : String) :
    (addSegment sqrtA road rnLen g q).hasNode i = g.hasNode i := by
  unfold RoadGraph.hasNode
  rw [addSegment_nodes]

theorem addSegment_mem_edges (sqrtA : ℚ → ℚ) (road : Road) (rnLen : ℕ)
    (g : RoadGraph) (q : ℕ × ((String × Point) × (String × Point)))
    (e : GEdge) (he : e ∈ (addSegment sqrtA road rnLen g q).edges) :
    (e.src = q.2.1.1 ∨ e.src = q.2.2.1) ∧ (e.tgt = q.2.1.1 ∨ e.tgt = q.2.2.1) ∧
      e.attrs.road_id = road.label ∧ e.attrs.speed = effectiveSpeed road ∧
      e.attrs.travel_time = e.attrs.length / 1000 / (e.attrs.speed / 60) ∨
    e ∈ g.edges := by
  revert he
  simp only [addSegment]
  by_cases hse : q.2.1.1 = q.2.2.1
  · rw [if_pos hse]
    exact fun he => Or.inr he
  · rw [if_neg hse]
    by_cases hb : road.traffic_direction = "Both directions"
    · rw [if_pos hb, getEdge?_add_edge_self]
      intro he
      rcases mem_add_edge _ _ _ _ _ he with rfl | he'
      · exact Or.inl ⟨Or.inr rfl, Or.inl rfl, rfl, rfl, rfl⟩
      · rcases mem_add_edge _ _ _ _ _ he' with rfl | he''
        · exact Or.inl ⟨Or.inl rfl, Or.inr rfl, rfl, rfl, rfl⟩
        · exact Or.inr he''
    · rw [if_neg hb]
      intro he
      rcases mem_add_edge _ _ _ _ _ he with rfl | he'
      · exact Or.inl ⟨Or.inl rfl, Or.inr rfl, rfl, rfl, rfl⟩
      · exact Or.inr he'

theorem addSegment_good (sqrtA : ℚ → ℚ) (road : Road) (roads : List Road)
    (rnLen : ℕ) (g : RoadGraph) (q : ℕ × ((String × Point) × (String × Point)))
    (hroad : road ∈ roads)
    (hs : g.hasNode q.2.1.1 = true) (ht : g.hasNode q.2.2.1 = true)
    (hgood : ∀ e ∈ g.edges, GoodEdge roads g e) :
    ∀ e ∈ (addSegment sqrtA road rnLen g q).edges,
      GoodEdge roads (addSegment sqrtA road rnLen g q) e := by
  intro e he
  rcases addSegment_mem_edges sqrtA road rnLen g q e he with
    ⟨hsrc, htgt, hrid, hspd, htt⟩ | he'
  · refine ⟨⟨road, hroad, hrid, hspd⟩, htt, ?_, ?_⟩
    · rw [addSegment_hasNode]
      rcases hsrc with h | h <;> rw [h]
      · exact hs
      · exact ht
    · rw [addSegment_hasNode]
      rcases htgt with h | h <;> rw [h]
      · exact hs
      · exact ht
  · refine GoodEdge_mono roads g _ e (hgood e he') ?_
    intro i h
    rw [addSegment_hasNode]
    exact h

theorem foldl_addSegment_hasNode (sqrtA : ℚ → ℚ) (road : Road) (rnLen : ℕ)
    (L : List (ℕ × ((String × Point) × (String × Point)))) :
    ∀ (g : RoadGraph) (i : String),
      (L.foldl (addSegment sqrtA road rnLen) g).hasNode i = g.hasNode i := by
  induction L with
  | nil => intro g i; rfl
  | cons q L' ih =>
    intro g i
    rw [List.foldl_cons, ih, addSegment_hasNode]

theorem foldl_addSegment_good (sqrtA : ℚ → ℚ) (road : Road) (roads : List Road)
    (rnLen : ℕ) (L : List (ℕ × ((String × Point) × (String × Point)))) :
    ∀ (g : RoadGraph), road ∈ roads →
      (∀ q ∈ L, g.hasNode q.2.1.1 = true ∧ g.hasNode q.2.2.1 = true) →
      (∀ e ∈ g.edges, GoodEdge roads g e) →
      ∀ e ∈ (L.foldl (addSegment sqrtA road rnLen) g).edges,
        GoodEdge roads (L.foldl (addSegment sqrtA road rnLen) g) e := by
  induction L with
  | nil => intro g _ _ hgood; exact hgood
  | cons q L' ih =>
    intro g hroad hL hgood
    rw [List.foldl_cons]
    refine ih _ hroad ?_ ?_
    · intro q' hq'
      rw [addSegment_hasNode, addSegment_hasNode]
      exact hL q' (by simp [hq'])
    · exact addSegment_good sqrtA road roads rnLen g q hroad
        (hL q (by simp)).1 (hL q (by simp)).2 hgood

theorem mem_of_mem_enumFrom {α : Type} (l : List α) :
    ∀ (n : ℕ) (x : ℕ × α), x ∈ l.enumFrom n → x.2 ∈ l := by
  induction l with
  | nil => intro n x h; cases h
  | cons a l' ih =>
    intro n x h
    rcases List.mem_cons.mp h with rfl | h'
    · simp
    · exact List.mem_cons_of_mem _ (ih (n + 1) x h')

theorem mem_of_mem_enum {α : Type} (l : List α) (x : ℕ × α) (h : x ∈ l.enum) :
    x.2 ∈ l := mem_of_mem_enumFrom l 0 x h

theorem addSegments_good (sqrtA : ℚ → ℚ) (road : Road) (roads : List Road)
    (rn : List (String × Point)) (g : RoadGraph) (hroad : road ∈ roads)
    (hrn : ∀ q ∈ rn, g.hasNode q.1 = true)
    (hgood : ∀ e ∈ g.edges, GoodEdge roads g e) :
    ∀ e ∈ (addSegments sqrtA road rn g).edges,
      GoodEdge roads (addSegments sqrtA road rn g) e := by
  unfold addSegments
  refine foldl_addSegment_good sqrtA road roads rn.length _ g hroad ?_ hgood
  intro q hq
  have hz := mem_of_mem_enum _ q hq
  have hcomp := List.of_mem_zip hz
  exact ⟨hrn _ hcomp.1, hrn _ (List.mem_of_mem_tail hcomp.2)⟩

theorem addSegments_hasNode (sqrtA : ℚ → ℚ) (road : Road)
    (rn : List (String × Point)) (g : RoadGraph) (i : String) :
    (addSegments sqrtA road rn g).hasNode i = g.hasNode i :=
  foldl_addSegment_hasNode sqrtA road rn.length _ g i

theorem getEdge?_eq_of_edges_eq (g g' : RoadGraph) (h : g.edges = g'.edges)
    (u v : String) : g.getEdge? u v = g'.getEdge? u v := by
  unfold RoadGraph.getEdge?
  rw [h]

theorem buildInit_inv (roads : List Road) (junctions : List Junction) :
    BuildInv roads junctions (buildInit junctions) := by
  have aux : ∀ (l : List Junction) (st : BuildState),
      (∀ kv ∈ st.junction_points, st.graph.hasNode kv.2 = true) →
      st.graph.edges = [] →
      (∀ j ∈ junctions, st.graph.hasNode ("J_" ++ j.node_id) = true ∨ j ∈ l) →
      ∀ r, r = l.foldl addJunctionNode st →
      (∀ kv ∈ r.junction_points, r.graph.hasNode kv.2 = true) ∧
      r.graph.edges = [] ∧
      (∀ j ∈ junctions, r.graph.hasNode ("J_" ++ j.node_id) = true) := by
    intro l
    induction l with
    | nil =>
      intro st h2 he h3 r hr
      rw [List.foldl_nil] at hr
      subst hr
      refine ⟨h2, he, ?_⟩
      intro j hj
      rcases h3 j hj with h | h
      · exact h
      · cases h
    | cons jn l' ih =>
      intro st h2 he h3 r hr
      rw [List.foldl_cons] at hr
      refine ih (addJunctionNode st jn) ?_ ?_ ?_ r hr
      · intro kv hkv
        unfold addJunctionNode
        rcases mem_dictInsert _ _ _ kv hkv with rfl | hkv'
        · exact hasNode_add_node_self _ _ _ _ _
        · exact hasNode_add_node_mono _ _ _ _ _ _ (h2 kv hkv')
      · rw [show (addJunctionNode st jn).graph.edges = st.graph.edges from rfl]
        exact he
      · intro j hj
        rcases h3 j hj with h | h
        · exact Or.inl (hasNode_add_node_mono _ _ _ _ _ _ h)
        · rcases List.mem_cons.mp h with rfl | h'
          · exact Or.inl (hasNode_add_node_self _ _ _ _ _)
          · exact Or.inr h'
  have hres := aux junctions ⟨RoadGraph.empty, [], 0⟩
    (by intro kv hkv; cases hkv) rfl (fun j hj => Or.inr hj) (buildInit junctions) rfl
  refine ⟨?_, hres.1, hres.2.2⟩
  intro e he
  rw [hres.2.1] at he
  cases he

theorem processRoad_inv (sqrtA : ℚ → ℚ) (junctions : List Junction)
    (roads : List Road) (st : BuildState) (road : Road) (hroad : road ∈ roads)
    (hinv : BuildInv roads junctions st) :
    BuildInv roads junctions (processRoad sqrtA junctions st road) := by
  obtain ⟨h1, h2, h3⟩ := hinv
  simp only [processRoad]
  by_cases hc : road.coords.length < 2
  · rw [if_pos hc]
    exact ⟨h1, h2, h3⟩
  · rw [if_neg hc]
    obtain ⟨ce, cm, c2, c3, crn⟩ :=
      collectRoadNodes_spec sqrtA junctions st road.coords h2 h3
    by_cases hlen : (collectRoadNodes sqrtA junctions st road.coords).2.length < 2
    · rw [if_pos hlen]
      refine ⟨?_, c2, c3⟩
      intro e he
      rw [ce] at he
      exact GoodEdge_mono roads st.graph _ e (h1 e he) cm
    · rw [if_neg hlen]
      refine ⟨?_, ?_, ?_⟩
      · intro e he
        refine addSegments_good sqrtA road roads _ _ hroad crn ?_ e he
        intro e' he'
        rw [ce] at he'
        exact GoodEdge_mono roads st.graph _ e' (h1 e' he') cm
      · intro kv hkv
        dsimp only
        rw [addSegments_hasNode]
        exact c2 kv hkv
      · intro j hj
        dsimp only
        rw [addSegments_hasNode]
        exact c3 j hj

theorem foldl_processRoad_inv (sqrtA : ℚ → ℚ) (junctions : List Junction)
    (roads : List Road) (l : List Road) :
    ∀ (st : BuildState), (∀ r ∈ l, r ∈ roads) →
      BuildInv roads junctions st →
      BuildInv roads junctions (l.foldl (processRoad sqrtA junctions) st) := by
  induction l with
  | nil => intro st _ h; exact h
  | cons r l' ih =>
    intro st hsub hinv
    rw [List.foldl_cons]
    exact ih _ (fun r' h => hsub r' (by simp [h]))
      (processRoad_inv sqrtA junctions roads st r (hsub r (by simp)) hinv)

/-- C6: every edge of a built graph carries the speed of the road that
wrote it (the road's positive speed limit, or the 40 km/h default),
`travel_time = (length/1000) / (speed/60)`, endpoints that exist as graph
nodes, and a positive travel time whenever its length is positive. -/
theorem C6_edge_attributes (sqrtA : ℚ → ℚ) (roads : List Road)
    (junctions : List Junction) (g : RoadGraph)
    (hok : create_road_network_graph sqrtA roads junctions = .ok g) :
    ∀ e ∈ g.edges,
      (∃ r ∈ roads, e.attrs.road_id = r.label ∧ e.attrs.speed = effectiveSpeed r) ∧
      e.attrs.travel_time = e.attrs.length / 1000 / (e.attrs.speed / 60) ∧
      g.hasNode e.src = true ∧ g.hasNode e.tgt = true ∧
      (0 < e.attrs.length → 0 < e.attrs.travel_time) := by
  unfold create_road_network_graph at hok
  split_ifs at hok with hje
  injection hok with hok
  subst hok
  have hinv := foldl_processRoad_inv sqrtA junctions roads roads
    (buildInit junctions) (fun r h => h) (buildInit_inv roads junctions)
  intro e he
  obtain ⟨⟨r, hr, hrid, hspd⟩, htt, hsrc, htgt⟩ := hinv.1 e he
  refine ⟨⟨r, hr, hrid, hspd⟩, htt, hsrc, htgt, ?_⟩
  intro hlen
  rw [htt]
  have hs : 0 < e.attrs.speed := hspd ▸ effectiveSpeed_pos r
  positivity

theorem C6_edge_attributes_witness :
    (∃ r ∈ roadsC7, eC7.attrs.road_id = r.label ∧ eC7.attrs.speed = effectiveSpeed r) ∧
    eC7.attrs.travel_time = eC7.attrs.length / 1000 / (eC7.attrs.speed / 60) ∧
    gC7.hasNode eC7.src = true ∧ gC7.hasNode eC7.tgt = true ∧
    (0 < eC7.attrs.length → 0 < eC7.attrs.travel_time) :=
  C6_edge_attributes idQ roadsC7 junsC7 gC7
    (by norm_num +decide [create_road_network_graph, buildInit, addJunctionNode, processRoad,
      collectRoadNodes, resolveNode, addSegments, addSegment, kdQuery, effectiveSpeed, dictGet,
      dictInsert, RoadGraph.add_node, RoadGraph.add_edge, RoadGraph.getEdge?, round2,
      roundHalfEven, d2, idQ, roadsC7, junsC7, RoadGraph.empty, gC7, List.enum,
      List.enumFrom, RoadGraph.addNodeList, RoadGraph.addEdgeList])
    eC7 (by norm_num [gC7, eC7])

/-! Mirror-edge lemmas for the bidirectional-road claim. -/

theorem MirrorEq_symm (g : RoadGraph) (x y : String) (h : MirrorEq g x y) :
    MirrorEq g y x := by
  obtain ⟨a, b, ha, hb, h1, h2, h3⟩ := h
  exact ⟨b, a, hb, ha, h1.symm, h2.symm, h3.symm⟩

theorem double_add_mirror (g : RoadGraph) (sid eid : String) (a : EdgeAttrs)
    (hne : sid ≠ eid) :
    (∀ x y, MirrorEq g x y →
      MirrorEq ((g.add_edge sid eid a).add_edge eid sid a) x y) ∧
    MirrorEq ((g.add_edge sid eid a).add_edge eid sid a) sid eid := by
  have hfwd : ((g.add_edge sid eid a).add_edge eid sid a).getEdge? sid eid = some a := by
    rw [getEdge?_add_edge_other _ eid sid a sid eid (fun hc => hne hc.1.symm),
        getEdge?_add_edge_self]
  have hbwd : ((g.add_edge sid eid a).add_edge eid sid a).getEdge? eid sid = some a :=
    getEdge?_add_edge_self _ eid sid a
  constructor
  · intro x y h
    by_cases hxy : (x = sid ∧ y = eid) ∨ (x = eid ∧ y = sid)
    · rcases hxy with ⟨rfl, rfl⟩ | ⟨rfl, rfl⟩
      · exact ⟨a, a, hfwd, hbwd, rfl, rfl, rfl⟩
      · exact ⟨a, a, hbwd, hfwd, rfl, rfl, rfl⟩
    · push_neg at hxy
      obtain ⟨a1, b1, ha1, hb1, h1, h2, h3⟩ := h
      refine ⟨a1, b1, ?_, ?_, h1, h2, h3⟩
      · rw [getEdge?_add_edge_other _ eid sid a x y
              (fun hc => (hxy.2 hc.1.symm) hc.2.symm),
            getEdge?_add_edge_other _ sid eid a x y
              (fun hc => (hxy.1 hc.1.symm) hc.2.symm)]
        exact ha1
      · rw [getEdge?_add_edge_other _ eid sid a y x
              (fun hc => (hxy.1 hc.2.symm) hc.1.symm),
            getEdge?_add_edge_other _ sid eid a y x
              (fun hc => (hxy.2 hc.2.symm) hc.1.symm)]
        exact hb1
  · exact ⟨a, a, hfwd, hbwd, rfl, rfl, rfl⟩

theorem addSegment_mirror (sqrtA : ℚ → ℚ) (road : Road) (rnLen : ℕ)
    (g : RoadGraph) (q : ℕ × ((String × Point) × (String × Point)))
    (hb : road.traffic_direction = "Both directions") :
    (∀ x y, MirrorEq g x y → MirrorEq (addSegment sqrtA road rnLen g q) x y) ∧
    (q.2.1.1 ≠ q.2.2.1 →
      MirrorEq (addSegment sqrtA road rnLen g q) q.2.1.1 q.2.2.1) := by
  simp only [addSegment]
  by_cases hse : q.2.1.1 = q.2.2.1
  · rw [if_pos hse]
    exact ⟨fun x y h => h, fun hne => absurd hse hne⟩
  · rw [if_neg hse, if_pos hb, getEdge?_add_edge_self]
    exact ⟨fun x y h => (double_add_mirror g _ _ _ hse).1 x y h,
      fun _ => (double_add_mirror g _ _ _ hse).2⟩

theorem foldl_addSegment_mirror_pres (sqrtA : ℚ → ℚ) (road : Road) (rnLen : ℕ)
    (hb : road.traffic_direction = "Both directions")
    (L : List (ℕ × ((String × Point) × (String × Point)))) :
    ∀ (g : RoadGraph) (x y : String), MirrorEq g x y →
      MirrorEq (L.foldl (addSegment sqrtA road rnLen) g) x y := by
  induction L with
  | nil => intro g x y h; exact h
  | cons q L' ih =>
    intro g x y h
    rw [List.foldl_cons]
    exact ih _ x y ((addSegment_mirror sqrtA road rnLen g q hb).1 x y h)

theorem foldl_addSegment_mirror_est (sqrtA : ℚ → ℚ) (road : Road) (rnLen : ℕ)
    (hb : road.traffic_direction = "Both directions")
    (L : List (ℕ × ((String × Point) × (String × Point)))) :
    ∀ (g : RoadGraph) (q : ℕ × ((String × Point) × (String × Point))),
      q ∈ L → q.2.1.1 ≠ q.2.2.1 →
      MirrorEq (L.foldl (addSegment sqrtA road rnLen) g) q.2.1.1 q.2.2.1 := by
  induction L with
  | nil => intro g q hq; cases hq
  | cons p L' ih =>
    intro g q hq hne
    rw [List.foldl_cons]
    rcases List.mem_cons.mp hq with rfl | hq'
    · exact foldl_addSegment_mirror_pres sqrtA road rnLen hb L' _ _ _
        ((addSegment_mirror sqrtA road rnLen g q hb).2 hne)
    · exact ih _ q hq' hne

theorem exists_enumFrom_of_mem {α : Type} (l : List α) :
    ∀ (n : ℕ) (a : α), a ∈ l → ∃ i, (i, a) ∈ l.enumFrom n := by
  induction l with
  | nil => intro n a h; cases h
  | cons x xs ih =>
    intro n a h
    rcases List.mem_cons.mp h with rfl | h'
    · exact ⟨n, by simp⟩
    · obtain ⟨i, hi⟩ := ih (n + 1) a h'
      exact ⟨i, by simp [hi]⟩

theorem addSegments_mirror_est (sqrtA : ℚ → ℚ) (road : Road)
    (rn : List (String × Point)) (g : RoadGraph)
    (hb : road.traffic_direction = "Both directions")
    (p : (String × Point) × (String × Point)) (hp : p ∈ rn.zip rn.tail)
    (hne : p.1.1 ≠ p.2.1) :
    MirrorEq (addSegments sqrtA road rn g) p.1.1 p.2.1 := by
  obtain ⟨i, hi⟩ := exists_enumFrom_of_mem (rn.zip rn.tail) 0 p hp
  exact foldl_addSegment_mirror_est sqrtA road rn.length hb
    (rn.zip rn.tail).enum g (i, p) hi hne

theorem addSegment_isSome (sqrtA : ℚ → ℚ) (road : Road) (rnLen : ℕ)
    (g : RoadGraph) (q : ℕ × ((String × Point) × (String × Point)))
    (u v : String) (h : (g.getEdge? u v).isSome = true) :
    ((addSegment sqrtA road rnLen g q).getEdge? u v).isSome = true := by
  simp only [addSegment]
  by_cases hse : q.2.1.1 = q.2.2.1
  · rw [if_pos hse]
    exact h
  · rw [if_neg hse]
    by_cases hb : road.traffic_direction = "Both directions"
    · rw [if_pos hb, getEdge?_add_edge_self]
      exact getEdge?_add_edge_isSome _ _ _ _ _ _ (getEdge?_add_edge_isSome _ _ _ _ _ _ h)
    · rw [if_neg hb]
      exact getEdge?_add_edge_isSome _ _ _ _ _ _ h

theorem addSegments_isSome (sqrtA : ℚ → ℚ) (road : Road)
    (rn : List (String × Point)) (u v : String) :
    ∀ (g : RoadGraph), (g.getEdge? u v).isSome = true →
      ((addSegments sqrtA road rn g).getEdge? u v).isSome = true := by
  unfold addSegments
  generalize (rn.zip rn.tail).enum = L
  induction L with
  | nil => intro g h; exact h
  | cons q L' ih =>
    intro g h
    rw [List.foldl_cons]
    exact ih _ (addSegment_isSome sqrtA road rn.length g q u v h)

theorem processRoad_isSome (sqrtA : ℚ → ℚ) (junctions : List Junction)
    (st : BuildState) (road : Road) (u v : String)
    (h2 : ∀ kv ∈ st.junction_points, st.graph.hasNode kv.2 = true)
    (h3 : ∀ j ∈ junctions, st.graph.hasNode ("J_" ++ j.node_id) = true)
    (h : (st.graph.getEdge? u v).isSome = true) :
    ((processRoad sqrtA junctions st road).graph.getEdge? u v).isSome = true := by
  simp only [processRoad]
  by_cases hc : road.coords.length < 2
  · rw [if_pos hc]
    exact h
  · rw [if_neg hc]
    obtain ⟨ce, cm, c2, c3, crn⟩ :=
      collectRoadNodes_spec sqrtA junctions st road.coords h2 h3
    have hcol : ((collectRoadNodes sqrtA junctions st road.coords).1.graph.getEdge?
        u v).isSome = true := by
      rw [getEdge?_eq_of_edges_eq _ st.graph ce]
      exact h
    by_cases hlen : (collectRoadNodes sqrtA junctions st road.coords).2.length < 2
    · rw [if_pos hlen]
      exact hcol
    · rw [if_neg hlen]
      dsimp only
      exact addSegments_isSome sqrtA road _ u v _ hcol

theorem foldl_processRoad_isSome (sqrtA : ℚ → ℚ) (junctions : List Junction)
    (roads : List Road) (l : List Road) (u v : String) :
    ∀ (st : BuildState), (∀ r ∈ l, r ∈ roads) →
      BuildInv roads junctions st →
      (st.graph.getEdge? u v).isSome = true →
      ((l.foldl (processRoad sqrtA junctions) st).graph.getEdge? u v).isSome = true := by
  induction l with
  | nil => intro st _ _ h; exact h
  | cons r l' ih =>
    intro st hsub hinv h
    rw [List.foldl_cons]
    exact ih _ (fun r' h' => hsub r' (by simp [h']))
      (processRoad_inv sqrtA junctions roads st r (hsub r (by simp)) hinv)
      (processRoad_isSome sqrtA junctions st r u v hinv.2.1 hinv.2.2 h)

/-- C7 (amended): immediately after a bidirectional road is processed, every
segment (u,v) between two distinct resolved nodes has its mirror edge (v,u)
present with identical length, speed and travel_time; and in the final graph
built from all roads both directions still exist as edges (though a
later-processed road over the same node pair may overwrite the attributes). -/
theorem C7_mirror_amended (sqrtA : ℚ → ℚ) (junctions : List Junction)
    (pre post : List Road) (r : Road) (stPre : BuildState)
    (rn : List (String × Point))
    (hst : stPre = pre.foldl (processRoad sqrtA junctions) (buildInit junctions))
    (hrn : rn = (collectRoadNodes sqrtA junctions stPre r.coords).2)
    (hb : r.traffic_direction = "Both directions")
    (hc : ¬ r.coords.length < 2)
    (p : (String × Point) × (String × Point))
    (hp : p ∈ rn.zip rn.tail) (hne : p.1.1 ≠ p.2.1) :
    MirrorEq (processRoad sqrtA junctions stPre r).graph p.1.1 p.2.1 ∧
    ((((pre ++ r :: post).foldl (processRoad sqrtA junctions)
        (buildInit junctions)).graph.getEdge? p.1.1 p.2.1).isSome = true ∧
     (((pre ++ r :: post).foldl (processRoad sqrtA junctions)
        (buildInit junctions)).graph.getEdge? p.2.1 p.1.1).isSome = true) := by
  have hlen2 : 2 ≤ rn.length := by
    rcases rn with - | ⟨x, rn'⟩
    · cases hp
    · rcases rn' with - | ⟨y, rn''⟩
      · simp [List.zip] at hp
      · simp
  have hrnlen : ¬ (collectRoadNodes sqrtA junctions stPre r.coords).2.length < 2 := by
    rw [← hrn]; omega
  have part1 : MirrorEq (processRoad sqrtA junctions stPre r).graph p.1.1 p.2.1 := by
    simp only [processRoad]
    rw [if_neg hc, if_neg hrnlen]
    dsimp only
    exact addSegments_mirror_est sqrtA r _ _ hb p (hrn ▸ hp) hne
  refine ⟨part1, ?_⟩
  rw [List.foldl_append, List.foldl_cons, ← hst]
  obtain ⟨a, b, ha, hb2, -, -, -⟩ := part1
  have hinvR : BuildInv (pre ++ r :: post) junctions
      (processRoad sqrtA junctions stPre r) := by
    have hPre := foldl_processRoad_inv sqrtA junctions (pre ++ r :: post) pre
      (buildInit junctions) (fun r' h => List.mem_append.mpr (Or.inl h))
      (buildInit_inv (pre ++ r :: post) junctions)
    rw [← hst] at hPre
    exact processRoad_inv sqrtA junctions _ stPre r
      (List.mem_append.mpr (Or.inr (List.mem_cons_self _ _))) hPre
  constructor
  · exact foldl_processRoad_isSome sqrtA junctions (pre ++ r :: post) post
      p.1.1 p.2.1 _ (fun r' h => List.mem_append.mpr (Or.inr (List.mem_cons_of_mem _ h)))
      hinvR (by rw [ha]; rfl)
  · exact foldl_processRoad_isSome sqrtA junctions (pre ++ r :: post) post
      p.2.1 p.1.1 _ (fun r' h => List.mem_append.mpr (Or.inr (List.mem_cons_of_mem _ h)))
      hinvR (by rw [hb2]; rfl)

/-- Witness for the amended bidirectional-road claim, on the two-road C7
scenario: the bidirectional road is processed first, the one-way road after. -/
theorem C7_mirror_amended_witness :
    MirrorEq (processRoad idQ junsC7 (buildInit junsC7)
      (⟨0, some 50, "Both directions", [(0, 0), (1000, 0)]⟩ : Road)).graph
      "J_J1" "J_J2" ∧
    ((([(⟨0, some 50, "Both directions", [(0, 0), (1000, 0)]⟩ : Road),
        (⟨1, some 30, "One direction", [(1000, 0), (0, 0)]⟩ : Road)].foldl
        (processRoad idQ junsC7)
        (buildInit junsC7)).graph.getEdge? "J_J1" "J_J2").isSome = true ∧
     (([(⟨0, some 50, "Both directions", [(0, 0), (1000, 0)]⟩ : Road),
        (⟨1, some 30, "One direction", [(1000, 0), (0, 0)]⟩ : Road)].foldl
        (processRoad idQ junsC7)
        (buildInit junsC7)).graph.getEdge? "J_J2" "J_J1").isSome = true) :=
  C7_mirror_amended idQ junsC7 [] [⟨1, some 30, "One direction", [(1000, 0), (0, 0)]⟩]
    ⟨0, some 50, "Both directions", [(0, 0), (1000, 0)]⟩ (buildInit junsC7)
    [("J_J1", (0, 0)), ("J_J2", (1000, 0))] rfl
    (by norm_num +decide [collectRoadNodes, resolveNode, kdQuery, effectiveSpeed,
      dictGet, dictInsert, buildInit, addJunctionNode, RoadGraph.add_node,
      RoadGraph.addNodeList, RoadGraph.empty, round2, roundHalfEven, d2, idQ,
      junsC7, List.enum, List.enumFrom])
    rfl (by norm_num)
    (("J_J1", (0, 0)), ("J_J2", (1000, 0)))
    (List.Mem.head _) (by decide)

/-! Preservation of the idle-at-facility invariant by every vehicle
operation. -/

theorem P9_start_response (g : RoadGraph) (dest : Point) (route : List String)
    (v : EmergencyVehicle) : P9 (EmergencyVehicle.start_response g dest route v).1 := by
  intro h
  simp only [EmergencyVehicle.start_response] at h
  exact absurd h (by decide)

theorem P9_return_to_facility (g : RoadGraph) (route : List String)
    (v : EmergencyVehicle) : P9 (EmergencyVehicle.return_to_facility g route v).1 := by
  intro h
  simp only [EmergencyVehicle.return_to_facility] at h
  exact absurd h (by decide)

theorem P9_arrive_at_facility (v : EmergencyVehicle) :
    P9 (EmergencyVehicle.arrive_at_facility v) :=
  fun _ => rfl

theorem P9_arrive_at_destination (t : ℚ) (v : EmergencyVehicle) (h : P9 v) :
    P9 (EmergencyVehicle.arrive_at_destination t v) := by
  simp only [EmergencyVehicle.arrive_at_destination]
  by_cases h1 : v.status = "responding"
  · rw [if_pos h1]
    intro hc
    simp at hc
  · rw [if_neg h1]
    by_cases h2 : v.status = "returning"
    · rw [if_pos h2]
      exact P9_arrive_at_facility v
    · rw [if_neg h2]
      exact h

theorem P9_update_movement (sqrtA : ℚ → ℚ) (g : RoadGraph) (step t : ℚ)
    (v : EmergencyVehicle) (h : P9 v) :
    P9 (EmergencyVehicle.update_movement sqrtA g step t v).1 := by
  simp only [EmergencyVehicle.update_movement]
  split
  · exact h
  next hguard =>
    split
    · exact h
    next h2 =>
      push_neg at hguard
      obtain ⟨hst, -⟩ := hguard
      have hP1 : ∀ (w : EmergencyVehicle), w.status = v.status → P9 w := by
        intro w hw hc
        rw [hw] at hc
        rcases hst with hst | hst <;> rw [hst] at hc <;> exact absurd hc (by decide)
      have main : ∀ (V1 : EmergencyVehicle), V1.status = v.status →
          P9 (if V1.route_geometry.length ≤ V1.route_index
              then (EmergencyVehicle.arrive_at_destination t V1, (none : Option String))
              else (V1, none)).1 := by
        intro V1 hV1
        split
        · exact P9_arrive_at_destination t V1 (hP1 V1 hV1)
        · exact hP1 V1 hV1
      exact main _ (by split <;> rfl)

theorem P9_update_patrol (sqrtA : ℚ → ℚ) (g : RoadGraph) (step : ℚ)
    (v : EmergencyVehicle) (h : P9 v) :
    P9 (PoliceCar.update_patrol sqrtA g step v).1 := by
  simp only [PoliceCar.update_patrol]
  split
  next hgd =>
    obtain ⟨hst, -⟩ := hgd
    have hP : ∀ (w : EmergencyVehicle), w.status = v.status → P9 w := by
      intro w hw hc
      rw [hw, hst] at hc
      exact absurd hc (by decide)
    split
    · exact hP v rfl
    · split
      · exact hP _ rfl
      · exact hP _ rfl
  · exact h

theorem P9_start_patrol (g : RoadGraph) (ns : List String)
    (v : EmergencyVehicle) (h : P9 v) :
    P9 (PoliceCar.start_patrol g ns v).1 := by
  simp only [PoliceCar.start_patrol]
  split
  · split
    · intro hc
      simp at hc
    · intro hc
      simp at hc
  · exact h

theorem P9_tickVehicle (sqrtA : ℚ → ℚ)
    (sp : RoadGraph → String → String → Option (List String))
    (pick : List String → String) (g : RoadGraph) (now step : ℚ)
    (v : EmergencyVehicle) (h : P9 v) :
    P9 (tickVehicle sqrtA sp pick g now step v).1 := by
  simp only [tickVehicle]
  split
  · exact P9_update_movement sqrtA g step now v h
  · split
    · exact P9_update_patrol sqrtA g step v h
    · split
      · split
        · exact h
        · split
          · split
            · split
              · exact P9_return_to_facility g _ v
              · exact h
            all_goals exact h
          · exact h
      · split
        · exact P9_start_patrol g _ v h
        · exact h

theorem P9_tickLoop (sqrtA : ℚ → ℚ)
    (sp : RoadGraph → String → String → Option (List String))
    (pick : List String → String) (g : RoadGraph) (now step : ℚ) :
    ∀ (vs : List EmergencyVehicle), (∀ v ∈ vs, P9 v) →
      ∀ w ∈ (tickLoop sqrtA sp pick g now step vs).1, P9 w := by
  intro vs
  induction vs with
  | nil =>
    intro _ w hw
    simp only [tickLoop] at hw
    cases hw
  | cons v vs ih =>
    intro h w hw
    simp only [tickLoop] at hw
    rcases he : (tickVehicle sqrtA sp pick g now step v).2 with - | e
    · rw [he] at hw
      simp only at hw
      rcases List.mem_cons.mp hw with rfl | hw2
      · exact P9_tickVehicle sqrtA sp pick g now step v (h v (List.mem_cons_self _ _))
      · exact ih (fun u hu => h u (List.mem_cons_of_mem _ hu)) w hw2
    · rw [he] at hw
      simp only at hw
      rcases List.mem_cons.mp hw with rfl | hw2
      · exact P9_tickVehicle sqrtA sp pick g now step v (h v (List.mem_cons_self _ _))
      · exact h w (List.mem_cons_of_mem _ hw2)

theorem P9_tick (sqrtA : ℚ → ℚ)
    (sp : RoadGraph → String → String → Option (List String))
    (pick : List String → String) (s : SimState)
    (h : ∀ v ∈ s.vehicles, P9 v) :
    ∀ w ∈ (tick sqrtA sp pick s).1.vehicles, P9 w := by
  intro w hw
  simp only [tick] at hw
  rcases he : (tickLoop sqrtA sp pick s.graph s.simulated_time
      (s.real_time_step * s.simulation_speed) s.vehicles).2 with - | e
  · rw [he] at hw
    simp only at hw
    exact P9_tickLoop sqrtA sp pick s.graph s.simulated_time
      (s.real_time_step * s.simulation_speed) s.vehicles h w hw
  · rw [he] at hw
    simp only at hw
    exact P9_tickLoop sqrtA sp pick s.graph s.simulated_time
      (s.real_time_step * s.simulation_speed) s.vehicles h w hw

theorem P9_replaceFirstById (vid : String) (v' : EmergencyVehicle)
    (hv' : P9 v') :
    ∀ (vs : List EmergencyVehicle), (∀ v ∈ vs, P9 v) →
      ∀ w ∈ replaceFirstById vs vid v', P9 w := by
  intro vs
  induction vs with
  | nil =>
    intro _ w hw
    cases hw
  | cons v vs ih =>
    intro h w hw
    simp only [replaceFirstById] at hw
    split at hw
    · rcases List.mem_cons.mp hw with rfl | hw2
      · exact hv'
      · exact h w (List.mem_cons_of_mem _ hw2)
    · rcases List.mem_cons.mp hw with rfl | hw2
      · exact h w (List.mem_cons_self _ _)
      · exact ih (fun u hu => h u (List.mem_cons_of_mem _ hu)) w hw2

theorem P9_ctrl_dispatch (g : RoadGraph) (vs : List EmergencyVehicle)
    (history : List HistEntry) (ts vid : String) (dest : Point)
    (route : List String) (h : ∀ v ∈ vs, P9 v) :
    ∀ w ∈ (ctrl_dispatch g vs history ts vid dest route).1.1, P9 w := by
  simp only [ctrl_dispatch]
  split
  · exact h
  · split
    · exact h
    · split
      · exact P9_replaceFirstById vid _ (P9_start_response g dest route _) vs h
      · exact P9_replaceFirstById vid _ (P9_start_response g dest route _) vs h

theorem P9_api_dispatch (sqrtA : ℚ → ℚ)
    (sp : RoadGraph → String → String → Option (List String))
    (toProj : Point → Point) (s : SimState) (history : List HistEntry)
    (ts vehicle_type : String) (dest : Point)
    (h : ∀ v ∈ s.vehicles, P9 v) :
    ∀ w ∈ (api_dispatch sqrtA sp toProj s history ts
      vehicle_type dest).1.1.vehicles, P9 w := by
  simp only [api_dispatch]
  split
  · exact h
  · split
    · split
      · exact h
      · split
        · exact P9_ctrl_dispatch s.graph s.vehicles history ts _ _ _ h
        · split
          · exact P9_ctrl_dispatch s.graph s.vehicles history ts _ _ _ h
          · exact P9_ctrl_dispatch s.graph s.vehicles history ts _ _ _ h
    · exact h

theorem P9_go (sqrtA : ℚ → ℚ) (pick : List String → String) (g : RoadGraph) :
    ∀ (fs : List Facility) (vid : ℕ) (acc : List EmergencyVehicle),
      (∀ v ∈ acc, P9 v) →
      ∀ v ∈ initialize_vehicles.go sqrtA pick g fs vid acc, P9 v := by
  have hcons : ∀ (w : EmergencyVehicle) (l : List EmergencyVehicle),
      P9 w → (∀ u ∈ l, P9 u) → ∀ u ∈ w :: l, P9 u := by
    intro w l hw hl u hu
    rcases List.mem_cons.mp hu with rfl | hu2
    · exact hw
    · exact hl u hu2
  intro fs
  induction fs with
  | nil =>
    intro vid acc hacc v hv
    simp only [initialize_vehicles.go] at hv
    exact hacc v (List.mem_reverse.mp hv)
  | cons f fs ih =>
    intro vid acc hacc v hv
    simp only [initialize_vehicles.go] at hv
    split at hv
    · exact ih _ _ (hcons _ _ (fun _ => rfl) hacc) v hv
    · split at hv
      · exact ih _ _ (hcons _ _ (fun _ => rfl) (hcons _ _ (fun _ => rfl)
          (hcons _ _ (fun _ => rfl) (hcons _ _ (fun _ => rfl) hacc)))) v hv
      · split at hv
        · exact ih _ _ (hcons _ _ (P9_start_patrol g _ _ (fun _ => rfl))
            (hcons _ _ (P9_start_patrol g _ _ (fun _ => rfl))
            (hcons _ _ (P9_start_patrol g _ _ (fun _ => rfl))
            (hcons _ _ (P9_start_patrol g _ _ (fun _ => rfl))
            (hcons _ _ (P9_start_patrol g _ _ (fun _ => rfl)) hacc))))) v hv
        · exact ih _ _ hacc v hv

theorem P9_initialize_vehicles (sqrtA : ℚ → ℚ) (pick : List String → String)
    (g : RoadGraph) (facilities : List Facility) :
    ∀ v ∈ initialize_vehicles sqrtA pick g facilities, P9 v := by
  intro v hv
  simp only [initialize_vehicles] at hv
  exact P9_go sqrtA pick g facilities 1 [] (fun u hu => absurd hu (List.not_mem_nil u)) v hv

/-- C9 (amended): in every reachable simulator state an idle vehicle stands
exactly at its home facility, and the transition into handling
(`arrive_at_destination` on a responding vehicle) keeps the vehicle at its
arrival point, which is in general not the home facility; the original claim
that a vehicle's location always lies on its route/patrol polyline is false
(see the counterexample). -/
theorem C9_idle_at_facility :
    (∀ (sqrtA : ℚ → ℚ)
       (sp : RoadGraph → String → String → Option (List String))
       (toProj : Point → Point) (s : SimState),
       Reachable sqrtA sp toProj s →
       ∀ v ∈ s.vehicles, v.status = "idle" →
         v.current_location = v.facility_location) ∧
    (∀ (t : ℚ) (v : EmergencyVehicle), v.status = "responding" →
      (EmergencyVehicle.arrive_at_destination t v).status = "handling" ∧
      (EmergencyVehicle.arrive_at_destination t v).current_location =
        v.current_location) := by
  constructor
  · intro sqrtA sp toProj s hs
    induction hs with
    | init pick g facilities =>
      exact P9_initialize_vehicles sqrtA pick g facilities
    | tick pick hs ih =>
      exact P9_tick sqrtA sp pick _ ih
    | dispatch history ts vehicle_type dest hs ih =>
      exact P9_api_dispatch sqrtA sp toProj _ history ts vehicle_type dest ih
  · intro t v hv
    constructor
    · simp only [EmergencyVehicle.arrive_at_destination]
      rw [if_pos hv]
    · simp only [EmergencyVehicle.arrive_at_destination]
      rw [if_pos hv]

/-- Witness for the amended location/status invariant: the freshly
initialized fire-truck fleet, and a concrete responding vehicle arriving. -/
theorem C9_idle_at_facility_witness :
    truckInit ∈ stateFire0.vehicles ∧
    truckInit.status = "idle" ∧
    truckInit.current_location = truckInit.facility_location ∧
    vResponding.status = "responding" ∧
    (EmergencyVehicle.arrive_at_destination 0 vResponding).status = "handling" ∧
    (EmergencyVehicle.arrive_at_destination 0 vResponding).current_location =
      vResponding.current_location := by
  have hmem : truckInit ∈ stateFire0.vehicles := by
    rw [stateFire0_eq]
    exact List.mem_singleton.mpr rfl
  have hidle : truckInit.status = "idle" := rfl
  have hres : vResponding.status = "responding" := rfl
  have hreach : Reachable idQ spEq id stateFire0 :=
    Reachable.init pickHead gFire [facFire]
  exact ⟨hmem, hidle,
    C9_idle_at_facility.1 idQ spEq id stateFire0 hreach truckInit hmem hidle,
    hres, (C9_idle_at_facility.2 0 vResponding hres).1,
    (C9_idle_at_facility.2 0 vResponding hres).2⟩

end ERO
